import Mathlib

/-!
# Resource configuration matching and ranking (`ResConfigImpl`)

A shallow embedding of `frameworks/resmgr/src/res_config_impl.cpp` of the
OpenHarmony resource manager, in the build where `SUPPORT_GRAPHICS` is
defined (the only build in which a config can hold a locale). The name lookup of
`interfaces/native/resource/src/raw_file_manager.cpp` is embedded in the
section on raw directories.

* Enumerations (`Direction`, `DeviceType`, `ColorMode`, `ScreenDensity`) are
  C enums; they are embedded as `Int`, and the `int` subtraction of two
  screen densities is the subtraction of `Int` (enumerator values are dpi
  buckets, far from the range where `int` arithmetic could overflow).
* `mcc_` and `mnc_` are `uint32_t`; they are only ever compared, so they are
  embedded as `Nat`.
* A pointer that may be `nullptr` is an `Option`.
* `res_common.h`, `locale_matcher.h`, `res_locale.h` and `utils/utils.h` are
  not part of the sources at hand. Their constants are the fields of
  `ResCommon`, the functions of `LocaleMatcher` the fields of
  `LocaleMatcher`, the fallible helpers used by `CopyLocale` the fields of
  `Runtime`, and the callees of `SetLocaleInfo` and `CompleteScript` the
  fields of `LocaleFactory`; every definition translated from the source
  takes them as parameters.
-/

namespace OHOS.Global.Resource

/-- The `ResLocale` class as far as `res_config_impl.cpp` reads it: the three
codes behind `GetLanguage`, `GetScript` and `GetRegion`. -/
structure ResLocale where
  language_ : String
  script_ : String
  region_ : String
deriving DecidableEq

/-- The `icu::Locale` class as far as `res_config_impl.cpp` reads it: the
three codes behind `getLanguage`, `getScript` and `getCountry`. -/
structure Locale where
  language : String
  script : String
  country : String
deriving DecidableEq

/-- The constants of `res_common.h` that `res_config_impl.cpp` names. The
header is not among the sources, so the values are parameters. -/
structure ResCommon where
  DIRECTION_NOT_SET : Int
  DEVICE_NOT_SET : Int
  COLOR_MODE_NOT_SET : Int
  LIGHT : Int
  SCREEN_DENSITY_NOT_SET : Int
  MCC_UNDEFINED : Nat
  MNC_UNDEFINED : Nat
deriving DecidableEq

/-- The static functions of `LocaleMatcher` that `Match`, `IsMoreSuitable`
and `IsMoreSpecificThan` call. `locale_matcher.cpp` is not among the sources,
so the functions are parameters; the two comparators return an `int8_t`. -/
structure LocaleMatcher where
  Match : Option ResLocale → Option ResLocale → Bool
  IsMoreSuitable : Option ResLocale → Option ResLocale → Option ResLocale → Int
  IsMoreSpecificThan : Option ResLocale → Option ResLocale → Int

/-- The helpers `CopyLocale` relies on and which may fail at run time.
* `EncodeLocale` is `Utils::EncodeLocale` (a `uint64_t` key);
* `allocFails` says that `new(std::nothrow) ResLocale` returned `nullptr`;
* `CopyFromLocaleInfo` is `ResLocale::CopyFromLocaleInfo` on a fresh
  `ResLocale`: `none` when the returned state is not `SUCCESS`, otherwise
  the filled-in object;
* `build` is `icu::LocaleBuilder().setLocale(l).build(errCode)`: `none` when
  `errCode` is a failure. -/
structure Runtime where
  EncodeLocale : String → String → String → Nat
  allocFails : Bool
  CopyFromLocaleInfo : Option Locale → Option ResLocale
  build : Locale → Option Locale

/-- The data members of `ResConfigImpl` (res_config_impl.h, lines 143-153). -/
structure ResConfigImpl where
  resLocale_ : Option ResLocale
  direction_ : Int
  screenDensity_ : Int
  colorMode_ : Int
  mcc_ : Nat
  mnc_ : Nat
  deviceType_ : Int
  localeInfo_ : Option Locale
  isCompletedScript_ : Bool
deriving DecidableEq

namespace ResConfigImpl

/-- The constructor `ResConfigImpl::ResConfigImpl()`. -/
def new (k : ResCommon) : ResConfigImpl :=
  { resLocale_ := none
    direction_ := k.DIRECTION_NOT_SET
    screenDensity_ := k.SCREEN_DENSITY_NOT_SET
    colorMode_ := k.LIGHT
    mcc_ := k.MCC_UNDEFINED
    mnc_ := k.MNC_UNDEFINED
    deviceType_ := k.DEVICE_NOT_SET
    localeInfo_ := none
    isCompletedScript_ := false }

def SetDeviceType (this : ResConfigImpl) (deviceType : Int) : ResConfigImpl :=
  { this with deviceType_ := deviceType }

def SetDirection (this : ResConfigImpl) (direction : Int) : ResConfigImpl :=
  { this with direction_ := direction }

def SetColorMode (this : ResConfigImpl) (colorMode : Int) : ResConfigImpl :=
  { this with colorMode_ := colorMode }

def SetMcc (this : ResConfigImpl) (mcc : Nat) : ResConfigImpl :=
  { this with mcc_ := mcc }

def SetMnc (this : ResConfigImpl) (mnc : Nat) : ResConfigImpl :=
  { this with mnc_ := mnc }

def SetScreenDensity (this : ResConfigImpl) (screenDensity : Int) : ResConfigImpl :=
  { this with screenDensity_ := screenDensity }

def GetLocaleInfo (this : ResConfigImpl) : Option Locale := this.localeInfo_

def GetResLocale (this : ResConfigImpl) : Option ResLocale := this.resLocale_

def GetDirection (this : ResConfigImpl) : Int := this.direction_

def GetScreenDensity (this : ResConfigImpl) : Int := this.screenDensity_

def GetColorMode (this : ResConfigImpl) : Int := this.colorMode_

def GetMcc (this : ResConfigImpl) : Nat := this.mcc_

def GetMnc (this : ResConfigImpl) : Nat := this.mnc_

def GetDeviceType (this : ResConfigImpl) : Int := this.deviceType_

/-- The outcome of a call `this.Copy(other)` or `this.CopyLocale(other)` on two
distinct objects: the returned `bool` and both objects after the call. -/
structure CopyResult where
  ret : Bool
  self : ResConfigImpl
  other : ResConfigImpl
deriving DecidableEq

/-- The method `ResConfigImpl::CopyLocale` (lines 168-219). `needCopy1` is
`needCopy` after the first `if`, `needCopy2` after the third. In the
`needCopy` branch `other.GetLocaleInfo()` is dereferenced; it is never
`nullptr` there, and the embedding lets the copy fail in that case. -/
def CopyLocale (rt : Runtime) (this other : ResConfigImpl) : CopyResult :=
  let needCopy1 : Bool := this.GetLocaleInfo.isNone && other.GetLocaleInfo.isSome
  if this.GetLocaleInfo.isSome && other.GetLocaleInfo.isNone then
    ⟨true, { this with resLocale_ := none, localeInfo_ := none }, other⟩
  else
    let needCopy2 : Bool :=
      match this.GetResLocale, other.GetLocaleInfo with
      | some rl, some li =>
        if rt.EncodeLocale rl.language_ rl.script_ rl.region_
            ≠ rt.EncodeLocale li.language li.script li.country then true
        else needCopy1
      | _, _ => needCopy1
    if needCopy2 then
      if rt.allocFails then ⟨false, this, other⟩
      else
        match rt.CopyFromLocaleInfo other.GetLocaleInfo with
        | none => ⟨false, this, other⟩
        | some temp =>
          match other.GetLocaleInfo.bind rt.build with
          | none => ⟨false, this, other⟩
          | some tempLocale =>
            ⟨true, { this with resLocale_ := some temp, localeInfo_ := some tempLocale }, other⟩
    else ⟨true, this, other⟩

/-- The method `ResConfigImpl::Copy` (lines 220-245). -/
def Copy (rt : Runtime) (this other : ResConfigImpl) : CopyResult :=
  let r := CopyLocale rt this other
  if !r.ret then ⟨false, r.self, r.other⟩
  else
    let other := r.other
    let t0 := r.self
    let t1 := if t0.GetDeviceType ≠ other.GetDeviceType then
      t0.SetDeviceType other.GetDeviceType else t0
    let t2 := if t1.GetDirection ≠ other.GetDirection then
      t1.SetDirection other.GetDirection else t1
    let t3 := if t2.GetColorMode ≠ other.GetColorMode then
      t2.SetColorMode other.GetColorMode else t2
    let t4 := if t3.GetMcc ≠ other.GetMcc then t3.SetMcc other.GetMcc else t3
    let t5 := if t4.GetMnc ≠ other.GetMnc then t4.SetMnc other.GetMnc else t4
    let t6 := if t5.GetScreenDensity ≠ other.GetScreenDensity then
      t5.SetScreenDensity other.GetScreenDensity else t5
    ⟨true, t6, other⟩

/-- The method `ResConfigImpl::Match` (lines 247-285). `rest` is the code from
the call of `LocaleMatcher::Match` on, reached whenever the mcc/mnc block
does not return. -/
def Match (lm : LocaleMatcher) (k : ResCommon) (this : ResConfigImpl)
    (other : Option ResConfigImpl) : Bool :=
  match other with
  | none => false
  | some other =>
    let rest : Bool :=
      if !(lm.Match this.resLocale_ other.GetResLocale) then false
      else if this.direction_ ≠ k.DIRECTION_NOT_SET ∧ other.direction_ ≠ k.DIRECTION_NOT_SET
          ∧ this.direction_ ≠ other.direction_ then false
      else if this.deviceType_ ≠ k.DEVICE_NOT_SET ∧ other.deviceType_ ≠ k.DEVICE_NOT_SET
          ∧ this.deviceType_ ≠ other.deviceType_ then false
      else if this.colorMode_ ≠ k.COLOR_MODE_NOT_SET ∧ other.colorMode_ ≠ k.COLOR_MODE_NOT_SET
          ∧ this.colorMode_ ≠ other.colorMode_ then false
      else true
    if this.mcc_ ≠ k.MCC_UNDEFINED ∧ this.mnc_ ≠ k.MNC_UNDEFINED then
      if other.mcc_ ≠ k.MCC_UNDEFINED ∧ other.mnc_ ≠ k.MNC_UNDEFINED then
        if this.mcc_ ≠ other.mcc_ ∨ this.mnc_ ≠ other.mnc_ then false else rest
      else rest
    else if this.mcc_ ≠ k.MCC_UNDEFINED ∧ this.mnc_ = k.MNC_UNDEFINED then
      if other.mcc_ ≠ k.MCC_UNDEFINED ∧ this.mcc_ ≠ other.mcc_ then false else rest
    else rest

/-- The method `ResConfigImpl::IsMoreSpecificThan` (lines 375-411). `rest` is
the code from the call of `LocaleMatcher::IsMoreSpecificThan` on. -/
def IsMoreSpecificThan (lm : LocaleMatcher) (k : ResCommon) (this : ResConfigImpl)
    (other : Option ResConfigImpl) : Bool :=
  match other with
  | none => true
  | some other =>
    let rest : Bool :=
      let result : Int := lm.IsMoreSpecificThan this.GetResLocale other.GetResLocale
      if result > 0 then true
      else if result < 0 then false
      else if this.direction_ ≠ other.direction_ then
        decide (this.direction_ ≠ k.DIRECTION_NOT_SET)
      else if this.deviceType_ ≠ other.deviceType_ then
        decide (this.deviceType_ ≠ k.DEVICE_NOT_SET)
      else if this.colorMode_ ≠ other.colorMode_ then
        decide (this.colorMode_ ≠ k.COLOR_MODE_NOT_SET)
      else if this.screenDensity_ ≠ other.screenDensity_ then
        decide (this.screenDensity_ ≠ k.SCREEN_DENSITY_NOT_SET)
      else true
    if this.mcc_ ≠ k.MCC_UNDEFINED ∧ this.mnc_ ≠ k.MNC_UNDEFINED then
      if this.mcc_ ≠ other.mcc_ ∨ this.mnc_ ≠ other.mnc_ then false else rest
    else if this.mcc_ ≠ k.MCC_UNDEFINED ∧ this.mnc_ = k.MNC_UNDEFINED then
      if this.mcc_ ≠ other.mcc_ then true else rest
    else rest

/-- The method `ResConfigImpl::IsMoreSuitable` (lines 294-350). `cascade` is
the code from the call of `LocaleMatcher::IsMoreSuitable` on, reached
whenever the mcc/mnc block does not return. -/
def IsMoreSuitable (lm : LocaleMatcher) (k : ResCommon) (this : ResConfigImpl)
    (other request : Option ResConfigImpl) : Bool :=
  match request, other with
  | some request, some other =>
    let cascade : Bool :=
      let result : Int :=
        lm.IsMoreSuitable this.GetResLocale other.GetResLocale request.GetResLocale
      if result > 0 then true
      else if result < 0 then false
      else if this.direction_ ≠ other.direction_
          ∧ request.direction_ ≠ k.DIRECTION_NOT_SET then
        decide (this.direction_ ≠ k.DIRECTION_NOT_SET)
      else if this.deviceType_ ≠ other.deviceType_
          ∧ request.deviceType_ ≠ k.DEVICE_NOT_SET then
        decide (this.deviceType_ ≠ k.DEVICE_NOT_SET)
      else if this.colorMode_ ≠ other.colorMode_
          ∧ request.colorMode_ ≠ k.COLOR_MODE_NOT_SET then
        decide (this.colorMode_ ≠ k.COLOR_MODE_NOT_SET)
      else if request.screenDensity_ ≠ k.SCREEN_DENSITY_NOT_SET
          ∧ this.screenDensity_ ≠ other.screenDensity_ then
        let thisDistance : Int := this.screenDensity_ - request.screenDensity_
        let otherDistance : Int := other.screenDensity_ - request.screenDensity_
        if thisDistance ≥ 0 ∧ otherDistance ≥ 0 then decide (thisDistance ≤ otherDistance)
        else if thisDistance > 0 then true
        else if otherDistance > 0 then false
        else decide (thisDistance ≥ otherDistance)
      else IsMoreSpecificThan lm k this (some other)
    if request.mcc_ ≠ k.MCC_UNDEFINED ∧ request.mnc_ ≠ k.MNC_UNDEFINED then
      if this.mcc_ ≠ other.mcc_ ∨ this.mnc_ ≠ other.mnc_ then
        decide (this.mcc_ ≠ k.MCC_UNDEFINED ∧ this.mnc_ ≠ k.MNC_UNDEFINED)
      else cascade
    else if request.mcc_ ≠ k.MCC_UNDEFINED ∧ request.mnc_ = k.MNC_UNDEFINED then
      if this.mcc_ ≠ other.mcc_ then decide (this.mcc_ ≠ k.MCC_UNDEFINED) else cascade
    else cascade
  | _, _ => IsMoreSpecificThan lm k this other

end ResConfigImpl

/-- Modelled from the spec: the sentinels of `res_common.h`, which is not
among the sources, at concrete values for evaluating the code on examples.
The spec (section 3) has an unset case in each enumeration, an "undefined"
sentinel for the screen density, and for `mcc` and `mnc` a sentinel
"distinct from 0"; the constructor shows `LIGHT` to be a colour mode of its
own. -/
def specCommon : ResCommon :=
  { DIRECTION_NOT_SET := -1
    DEVICE_NOT_SET := -1
    COLOR_MODE_NOT_SET := -1
    LIGHT := 1
    SCREEN_DENSITY_NOT_SET := 0
    MCC_UNDEFINED := 4294967295
    MNC_UNDEFINED := 4294967295 }

/-- Modelled from the spec: which of region, script and language a locale
asserts (section 4.2, `IsMoreSpecificThan`); an absent locale asserts none
("treated as least-specific"). -/
def specAsserts (l : Option ResLocale) : Bool × Bool × Bool :=
  match l with
  | none => (false, false, false)
  | some l => (!l.region_.isEmpty, !l.script_.isEmpty, !l.language_.isEmpty)

/-- Modelled from the spec: `-1`, `0` or `+1` as one side only has the
property. -/
def specPrefer (a b : Bool) : Int :=
  if a = b then 0 else if a then 1 else -1

/-- Modelled from the spec: `LocaleMatcher::IsMoreSpecificThan` of section
4.2, "more populated fields (region > script > language) rank higher; ties
return 0". -/
def specIsMoreSpecificThan (a b : Option ResLocale) : Int :=
  let x := specAsserts a
  let y := specAsserts b
  if specPrefer x.1 y.1 ≠ 0 then specPrefer x.1 y.1
  else if specPrefer x.2.1 y.2.1 ≠ 0 then specPrefer x.2.1 y.2.1
  else specPrefer x.2.2 y.2.2

/-- Modelled from the spec: `LocaleMatcher::Match` of section 4.2, true when
either locale is absent, otherwise equal languages and a candidate script and
region that are empty or equal to those of the request. -/
def specLocaleMatch (candidate request : Option ResLocale) : Bool :=
  match candidate, request with
  | some c, some r =>
    c.language_ == r.language_ && (c.script_.isEmpty || c.script_ == r.script_)
      && (c.region_.isEmpty || c.region_ == r.region_)
  | _, _ => true

/-- Modelled from the spec: `LocaleMatcher::IsMoreSuitable` of section 4.2:
language, then script, then region, each deciding when one side agrees with
the request and the other does not; a full tie falls through to
specificity. With no request locale nothing can agree or disagree. -/
def specLocaleIsMoreSuitable (a b request : Option ResLocale) : Int :=
  match request with
  | none => specIsMoreSpecificThan a b
  | some r =>
    let agrees (f : ResLocale → String) (l : Option ResLocale) : Bool :=
      match l with
      | none => false
      | some l => f l == f r
    if specPrefer (agrees ResLocale.language_ a) (agrees ResLocale.language_ b) ≠ 0 then
      specPrefer (agrees ResLocale.language_ a) (agrees ResLocale.language_ b)
    else if specPrefer (agrees ResLocale.script_ a) (agrees ResLocale.script_ b) ≠ 0 then
      specPrefer (agrees ResLocale.script_ a) (agrees ResLocale.script_ b)
    else if specPrefer (agrees ResLocale.region_ a) (agrees ResLocale.region_ b) ≠ 0 then
      specPrefer (agrees ResLocale.region_ a) (agrees ResLocale.region_ b)
    else specIsMoreSpecificThan a b

/-- Modelled from the spec: the `LocaleMatcher` of section 4.2, whose source
file is not among the sources; used to evaluate the code on examples. -/
def specLocaleMatcher : LocaleMatcher :=
  { Match := specLocaleMatch
    IsMoreSuitable := specLocaleIsMoreSuitable
    IsMoreSpecificThan := specIsMoreSpecificThan }

/-- A runtime in which nothing fails and `EncodeLocale` keeps the lengths of
the three codes apart; used to evaluate `Copy` on examples. -/
def plainRuntime : Runtime :=
  { EncodeLocale := fun l s r => (l.length * 16 + s.length) * 16 + r.length
    allocFails := false
    CopyFromLocaleInfo := fun l => l.map fun i => ⟨i.language, i.script, i.country⟩
    build := fun l => some l }

/-! ## Setting the locale and completing the script -/

/-- The enumeration `RState` of `res_common.h`, which is not among the
sources: the three enumerators `res_config_impl.cpp` names, and `OTHER` for
every further value a callee may report. -/
inductive RState where
  | SUCCESS
  | NOT_SUPPORT_SEP
  | NOT_ENOUGH_MEM
  | OTHER (code : Int)
deriving DecidableEq

/-- Modelled from the spec: `Utils::IsStrEmpty` of `utils/utils.h`, which is
not among the sources; a `const char *` is an `Option String`, and the test
is the one line 68 writes out for `script`: the pointer is `nullptr` or the
string is empty ("empty (or null) language"). -/
def IsStrEmpty (str : Option String) : Bool :=
  match str with
  | none => true
  | some s => s.isEmpty

/-- The callees of `SetLocaleInfo` and `CompleteScript` whose code is not
among the sources; they are parameters.
* `BuildFromParts` is `ResLocale::BuildFromParts`: the state it reports and
  the object it returns, which is only read when the state is `SUCCESS`;
* `Normalize` is `LocaleMatcher::Normalize` on a pointer that is not
  `nullptr`: the returned `bool` and the object after the call;
* `NormalizeNull` is the `bool` returned by `LocaleMatcher::Normalize(nullptr)`;
* `build` is `icu::LocaleBuilder().setLanguage(..).setRegion(..).setScript(..)
  .build(errCode)` on the three codes of a `ResLocale`: `none` when `errCode`
  is a failure. -/
structure LocaleFactory where
  BuildFromParts : Option String → Option String → Option String → RState × ResLocale
  Normalize : ResLocale → Bool × ResLocale
  NormalizeNull : Bool
  build : ResLocale → Option Locale

namespace ResConfigImpl

/-- The method `ResConfigImpl::SetLocaleInfo(language, script, region)` (lines
51-95): the returned state and the object after the call. `normalized` is
the outcome of the block of lines 68-75: `none` when it returns
`NOT_ENOUGH_MEM`, otherwise the object and the built locale after it. -/
def SetLocaleInfo (lf : LocaleFactory) (this : ResConfigImpl)
    (language script region : Option String) : RState × ResConfigImpl :=
  if IsStrEmpty language then
    (RState.SUCCESS, { this with resLocale_ := none, localeInfo_ := none })
  else
    let built := lf.BuildFromParts language script region
    if built.1 = RState.SUCCESS then
      let this1 : ResConfigImpl := { this with isCompletedScript_ := false }
      let normalized : Option (ResConfigImpl × ResLocale) :=
        if script = none ∨ script = some "" then
          if (lf.Normalize built.2).1 then
            some ({ this1 with isCompletedScript_ := true }, (lf.Normalize built.2).2)
          else none
        else some (this1, built.2)
      match normalized with
      | none => (RState.NOT_ENOUGH_MEM, this1)
      | some (this2, resLocale) =>
        match lf.build resLocale with
        | none => (RState.NOT_ENOUGH_MEM, this2)
        | some temp =>
          (built.1, { this2 with resLocale_ := some resLocale, localeInfo_ := some temp })
    else (built.1, this)

/-- The method `ResConfigImpl::CompleteScript` (lines 360-368). `Normalize`
works on the object `resLocale_` points to, so the locale after the call is
the one `Normalize` leaves, whatever it returns. -/
def CompleteScript (lf : LocaleFactory) (this : ResConfigImpl) : ResConfigImpl :=
  if this.isCompletedScript_ then this
  else
    match this.resLocale_ with
    | none => if lf.NormalizeNull then { this with isCompletedScript_ := true } else this
    | some l =>
      if (lf.Normalize l).1 then
        { this with resLocale_ := some (lf.Normalize l).2, isCompletedScript_ := true }
      else { this with resLocale_ := some (lf.Normalize l).2 }

/-- The method `ResConfigImpl::IsCompletedScript` (lines 370-373). -/
def IsCompletedScript (this : ResConfigImpl) : Bool := this.isCompletedScript_

end ResConfigImpl

/-- Modelled from the spec: the likely-subtags capability
`LookupLikelySubtags(language, region)` of section 6, which the spec leaves
to the host; a few entries, for evaluating the code on examples. -/
def specLikelyScript (language region : String) : Option String :=
  if language = "en" ∨ language = "fr" ∨ language = "de" then some "Latn"
  else if language = "zh" then
    if region = "TW" ∨ region = "HK" then some "Hant" else some "Hans"
  else if language = "ar" then some "Arab"
  else none

/-- Modelled from the spec: `LocaleMatcher::Normalize` of section 4.2, a
no-op returning true on a non-empty script, otherwise the script of the
likely-subtags lookup, and false with the locale unchanged when the lookup
fails. -/
def specNormalize (l : ResLocale) : Bool × ResLocale :=
  if l.script_.isEmpty then
    match specLikelyScript l.language_ l.region_ with
    | some script => (true, { l with script_ := script })
    | none => (false, l)
  else (true, l)

/-- Modelled from the spec: the callees of `SetLocaleInfo` and
`CompleteScript`, whose code is not among the sources, with no allocation
failure: `BuildFromParts` stores the three codes as they are (section 4.1),
`Normalize` is `specNormalize`, a config without a locale "is never
normalized" (section 3), and the locale builder keeps the three codes. -/
def specLocaleFactory : LocaleFactory :=
  { BuildFromParts := fun language script region =>
      (RState.SUCCESS, ⟨language.getD "", script.getD "", region.getD ""⟩)
    Normalize := specNormalize
    NormalizeNull := false
    build := fun l => some ⟨l.language_, l.script_, l.region_⟩ }

/-- A runtime in which `new(std::nothrow) ResLocale` fails; used to evaluate
`Copy` on a failing deep copy. -/
def failingRuntime : Runtime := { plainRuntime with allocFails := true }

/-! ## Definitions used to state and prove the ranking properties -/

namespace ResConfigImpl

/-- The code of `IsMoreSuitable` from the locale comparison on (the value
`cascade` in `IsMoreSuitable`), as a function of its own. -/
def suitableCascade (lm : LocaleMatcher) (k : ResCommon) (this other request : ResConfigImpl) :
    Bool :=
  let result : Int :=
    lm.IsMoreSuitable this.GetResLocale other.GetResLocale request.GetResLocale
  if result > 0 then true
  else if result < 0 then false
  else if this.direction_ ≠ other.direction_
      ∧ request.direction_ ≠ k.DIRECTION_NOT_SET then
    decide (this.direction_ ≠ k.DIRECTION_NOT_SET)
  else if this.deviceType_ ≠ other.deviceType_
      ∧ request.deviceType_ ≠ k.DEVICE_NOT_SET then
    decide (this.deviceType_ ≠ k.DEVICE_NOT_SET)
  else if this.colorMode_ ≠ other.colorMode_
      ∧ request.colorMode_ ≠ k.COLOR_MODE_NOT_SET then
    decide (this.colorMode_ ≠ k.COLOR_MODE_NOT_SET)
  else if request.screenDensity_ ≠ k.SCREEN_DENSITY_NOT_SET
      ∧ this.screenDensity_ ≠ other.screenDensity_ then
    let thisDistance : Int := this.screenDensity_ - request.screenDensity_
    let otherDistance : Int := other.screenDensity_ - request.screenDensity_
    if thisDistance ≥ 0 ∧ otherDistance ≥ 0 then decide (thisDistance ≤ otherDistance)
    else if thisDistance > 0 then true
    else if otherDistance > 0 then false
    else decide (thisDistance ≥ otherDistance)
  else IsMoreSpecificThan lm k this (some other)

/-- The request `R` sets every scalar qualifier on which `X` and `Y` differ:
it defines both mcc and mnc when their (mcc, mnc) pairs differ, and has the
direction, device type, colour mode or screen density set when they differ
there. -/
def Requests (k : ResCommon) (R X Y : ResConfigImpl) : Prop :=
  ((X.mcc_ ≠ Y.mcc_ ∨ X.mnc_ ≠ Y.mnc_) →
      R.mcc_ ≠ k.MCC_UNDEFINED ∧ R.mnc_ ≠ k.MNC_UNDEFINED) ∧
  (X.direction_ ≠ Y.direction_ → R.direction_ ≠ k.DIRECTION_NOT_SET) ∧
  (X.deviceType_ ≠ Y.deviceType_ → R.deviceType_ ≠ k.DEVICE_NOT_SET) ∧
  (X.colorMode_ ≠ Y.colorMode_ → R.colorMode_ ≠ k.COLOR_MODE_NOT_SET) ∧
  (X.screenDensity_ ≠ Y.screenDensity_ → R.screenDensity_ ≠ k.SCREEN_DENSITY_NOT_SET)

instance (k : ResCommon) (R X Y : ResConfigImpl) : Decidable (Requests k R X Y) := by
  unfold Requests
  infer_instance

/-- The configs `X` and `Y` differ in at least one of the six scalar
qualifiers. -/
def ScalarsDiffer (X Y : ResConfigImpl) : Prop :=
  X.mcc_ ≠ Y.mcc_ ∨ X.mnc_ ≠ Y.mnc_ ∨ X.direction_ ≠ Y.direction_ ∨
    X.deviceType_ ≠ Y.deviceType_ ∨ X.colorMode_ ≠ Y.colorMode_ ∨
    X.screenDensity_ ≠ Y.screenDensity_

instance (X Y : ResConfigImpl) : Decidable (ScalarsDiffer X Y) := by
  unfold ScalarsDiffer
  infer_instance

/-- The first scalar qualifier on which `X` and `Y` differ, in the order
mcc/mnc, direction, device type, colour mode, screen density, is in favour
of `X`: `X` defines both mcc and mnc and `Y` does not; or `X` has the
direction (device type, colour mode) set and `Y` has it unset; or the screen
density of `X` is the closest at or above that of `R`, else the closest
below. -/
def Beats (k : ResCommon) (R X Y : ResConfigImpl) : Prop :=
  ((X.mcc_ ≠ Y.mcc_ ∨ X.mnc_ ≠ Y.mnc_) ∧
      (X.mcc_ ≠ k.MCC_UNDEFINED ∧ X.mnc_ ≠ k.MNC_UNDEFINED) ∧
      (Y.mcc_ = k.MCC_UNDEFINED ∨ Y.mnc_ = k.MNC_UNDEFINED)) ∨
  (X.mcc_ = Y.mcc_ ∧ X.mnc_ = Y.mnc_ ∧
    ((X.direction_ ≠ k.DIRECTION_NOT_SET ∧ Y.direction_ = k.DIRECTION_NOT_SET) ∨
     (X.direction_ = Y.direction_ ∧
      ((X.deviceType_ ≠ k.DEVICE_NOT_SET ∧ Y.deviceType_ = k.DEVICE_NOT_SET) ∨
       (X.deviceType_ = Y.deviceType_ ∧
        ((X.colorMode_ ≠ k.COLOR_MODE_NOT_SET ∧ Y.colorMode_ = k.COLOR_MODE_NOT_SET) ∨
         (X.colorMode_ = Y.colorMode_ ∧ X.screenDensity_ ≠ Y.screenDensity_ ∧
          ((X.screenDensity_ - R.screenDensity_ ≥ 0 ∧
              (Y.screenDensity_ - R.screenDensity_ < 0 ∨
                X.screenDensity_ < Y.screenDensity_)) ∨
           (X.screenDensity_ - R.screenDensity_ < 0 ∧
              Y.screenDensity_ < X.screenDensity_)))))))))

end ResConfigImpl

/-! ## Example configurations -/

/-- A default-constructed config under the constants `specCommon`. -/
def plain : ResConfigImpl := ResConfigImpl.new specCommon

/-- A config whose only asserted qualifier is the screen density `d`. -/
def ofDensity (d : Int) : ResConfigImpl := plain.SetScreenDensity d

/-- A config whose only asserted qualifier is the direction `d`. -/
def ofDirection (d : Int) : ResConfigImpl := plain.SetDirection d

/-- A config whose only asserted qualifier is the device type `d`. -/
def ofDeviceType (d : Int) : ResConfigImpl := plain.SetDeviceType d

/-- A config asserting mcc 460 and mnc 0 and nothing else. -/
def carrierFull : ResConfigImpl := (plain.SetMcc 460).SetMnc 0

/-- A config asserting mcc 460 and nothing else. -/
def carrierMcc : ResConfigImpl := plain.SetMcc 460

/-- A config holding the locale en-Latn-US, on a phone-like device type 0,
with direction 1 and screen density 320. -/
def enUS : ResConfigImpl :=
  { plain with
    resLocale_ := some ⟨"en", "Latn", "US"⟩
    localeInfo_ := some ⟨"en", "Latn", "US"⟩
    isCompletedScript_ := true
    deviceType_ := 0
    direction_ := 1
    screenDensity_ := 320 }

/-- A config holding no locale, with mcc 460, mnc 1, direction 0 and screen
density 240. -/
def noLocale : ResConfigImpl :=
  (((plain.SetMcc 460).SetMnc 1).SetDirection 0).SetScreenDensity 240

/-- A config asserting mcc 310 and mnc 1 and nothing else. -/
def carrierOther : ResConfigImpl := (plain.SetMcc 310).SetMnc 1

/-- A config whose colour mode is `c`, otherwise default-constructed. -/
def ofColorMode (c : Int) : ResConfigImpl := plain.SetColorMode c

/-- A config holding the locale en-US without a script, not yet completed. -/
def enScriptless : ResConfigImpl :=
  { plain with
    resLocale_ := some ⟨"en", "", "US"⟩
    localeInfo_ := some ⟨"en", "", "US"⟩ }

/-! ## Raw directories (`interfaces/native/resource/src/raw_file_manager.cpp`)

The functions of this file are global C functions; they are embedded in the
namespace the file opens. A `RawDir *` is an `Option RawDir`, an `int` is an
`Int`, and the conversion of a `size_t` to `int` wraps modulo `2^32`. -/

/-- The conversion of the `size_t` value `n` to `int`: the value modulo
`2^32`, taken between `-2^31` and `2^31 - 1`. -/
def sizeToInt (n : Nat) : Int := ((n : Int) + 2 ^ 31) % 2 ^ 32 - 2 ^ 31

/-- The struct `FileNameCache` (lines 41-44). -/
structure FileNameCache where
  maxCount : Int
  names : List String
deriving DecidableEq

/-- The struct `RawDir` (lines 46-49), without the shared pointer to the
resource manager, which `GetRawFileCount` and `GetRawFileName` do not
read. -/
structure RawDir where
  fileNameCache : FileNameCache
deriving DecidableEq

/-- What a call of `GetRawFileName` yields: `nullptr`, the characters of a
cached name, or an access of `names[index]` past the end of the vector, whose
behaviour C++ leaves undefined. -/
inductive NameResult where
  | nullptr
  | name (chars : String)
  | outOfRange
deriving DecidableEq

/-- The function `GetRawFileCount` (lines 159-165). -/
def GetRawFileCount (rawDir : Option RawDir) : Int :=
  match rawDir with
  | none => 0
  | some dir => sizeToInt dir.fileNameCache.names.length

/-- The function `GetRawFileName` (lines 167-177). The unchecked
`names[index]` is `outOfRange` when `index` is not below the size of the
vector. -/
def GetRawFileName (rawDir : Option RawDir) (index : Int) : NameResult :=
  match rawDir with
  | none => NameResult.nullptr
  | some dir =>
    if index < 0 then NameResult.nullptr
    else
      let rawFileCount : Int := sizeToInt dir.fileNameCache.names.length
      if rawFileCount = 0 ∨ index ≥ rawFileCount then NameResult.nullptr
      else
        match dir.fileNameCache.names[index.toNat]? with
        | some chars => NameResult.name chars
        | none => NameResult.outOfRange

/-- A raw directory with two cached names. -/
def twoFiles : RawDir := ⟨⟨0, ["rawfile/a.txt", "rawfile/b.txt"]⟩⟩

/-! ## Lemmas on `Copy` -/

namespace ResConfigImpl

theorem copyDeviceType (t o : ResConfigImpl) :
    (if t.GetDeviceType ≠ o.GetDeviceType then t.SetDeviceType o.GetDeviceType else t)
      = { t with deviceType_ := o.deviceType_ } := by
  unfold GetDeviceType SetDeviceType
  split_ifs with h
  · rfl
  · obtain ⟨_, _, _, _, _, _, _, _, _⟩ := t
    simp only [ne_eq, not_not] at h
    subst h
    rfl

theorem copyDirection (t o : ResConfigImpl) :
    (if t.GetDirection ≠ o.GetDirection then t.SetDirection o.GetDirection else t)
      = { t with direction_ := o.direction_ } := by
  unfold GetDirection SetDirection
  split_ifs with h
  · rfl
  · obtain ⟨_, _, _, _, _, _, _, _, _⟩ := t
    simp only [ne_eq, not_not] at h
    subst h
    rfl

theorem copyColorMode (t o : ResConfigImpl) :
    (if t.GetColorMode ≠ o.GetColorMode then t.SetColorMode o.GetColorMode else t)
      = { t with colorMode_ := o.colorMode_ } := by
  unfold GetColorMode SetColorMode
  split_ifs with h
  · rfl
  · obtain ⟨_, _, _, _, _, _, _, _, _⟩ := t
    simp only [ne_eq, not_not] at h
    subst h
    rfl

theorem copyMcc (t o : ResConfigImpl) :
    (if t.GetMcc ≠ o.GetMcc then t.SetMcc o.GetMcc else t) = { t with mcc_ := o.mcc_ } := by
  unfold GetMcc SetMcc
  split_ifs with h
  · rfl
  · obtain ⟨_, _, _, _, _, _, _, _, _⟩ := t
    simp only [ne_eq, not_not] at h
    subst h
    rfl

theorem copyMnc (t o : ResConfigImpl) :
    (if t.GetMnc ≠ o.GetMnc then t.SetMnc o.GetMnc else t) = { t with mnc_ := o.mnc_ } := by
  unfold GetMnc SetMnc
  split_ifs with h
  · rfl
  · obtain ⟨_, _, _, _, _, _, _, _, _⟩ := t
    simp only [ne_eq, not_not] at h
    subst h
    rfl

theorem copyScreenDensity (t o : ResConfigImpl) :
    (if t.GetScreenDensity ≠ o.GetScreenDensity then t.SetScreenDensity o.GetScreenDensity
      else t) = { t with screenDensity_ := o.screenDensity_ } := by
  unfold GetScreenDensity SetScreenDensity
  split_ifs with h
  · rfl
  · obtain ⟨_, _, _, _, _, _, _, _, _⟩ := t
    simp only [ne_eq, not_not] at h
    subst h
    rfl

/-- `CopyLocale` only reads `other`. -/
theorem CopyLocale_other (rt : Runtime) (this other : ResConfigImpl) :
    (this.CopyLocale rt other).other = other := by
  unfold CopyLocale
  simp only
  repeat' split
  all_goals rfl

/-- `Copy` unfolded: after a successful `CopyLocale` the six scalar members
are those of `other`. -/
theorem Copy_eq (rt : Runtime) (this other : ResConfigImpl) :
    this.Copy rt other =
      if (this.CopyLocale rt other).ret = true then
        ⟨true, { (this.CopyLocale rt other).self with
                  deviceType_ := other.deviceType_
                  direction_ := other.direction_
                  colorMode_ := other.colorMode_
                  mcc_ := other.mcc_
                  mnc_ := other.mnc_
                  screenDensity_ := other.screenDensity_ }, other⟩
      else ⟨false, (this.CopyLocale rt other).self, other⟩ := by
  simp only [Copy, copyDeviceType, copyDirection, copyColorMode, copyMcc, copyMnc,
    copyScreenDensity, CopyLocale_other]
  cases (this.CopyLocale rt other).ret <;> rfl

/-! ## Lemmas on `Match` and `IsMoreSuitable` -/

/-- `Match` on a request that is not `nullptr`, as a conjunction of its
three rules. -/
theorem Match_some_iff (lm : LocaleMatcher) (k : ResCommon) (C R : ResConfigImpl) :
    C.Match lm k (some R) = true ↔
      ((C.mcc_ ≠ k.MCC_UNDEFINED ∧ C.mnc_ ≠ k.MNC_UNDEFINED →
          R.mcc_ ≠ k.MCC_UNDEFINED ∧ R.mnc_ ≠ k.MNC_UNDEFINED →
          C.mcc_ = R.mcc_ ∧ C.mnc_ = R.mnc_) ∧
        (C.mcc_ ≠ k.MCC_UNDEFINED ∧ C.mnc_ = k.MNC_UNDEFINED →
          R.mcc_ ≠ k.MCC_UNDEFINED → C.mcc_ = R.mcc_)) ∧
      lm.Match C.resLocale_ R.resLocale_ = true ∧
      (C.direction_ = R.direction_ ∨ C.direction_ = k.DIRECTION_NOT_SET
        ∨ R.direction_ = k.DIRECTION_NOT_SET) ∧
      (C.deviceType_ = R.deviceType_ ∨ C.deviceType_ = k.DEVICE_NOT_SET
        ∨ R.deviceType_ = k.DEVICE_NOT_SET) ∧
      (C.colorMode_ = R.colorMode_ ∨ C.colorMode_ = k.COLOR_MODE_NOT_SET
        ∨ R.colorMode_ = k.COLOR_MODE_NOT_SET) := by
  simp only [Match, GetResLocale]
  split_ifs <;> simp_all <;> omega

/-- `IsMoreSuitable` on two non-null arguments: the mcc/mnc block followed by
`suitableCascade`. -/
theorem IsMoreSuitable_some (lm : LocaleMatcher) (k : ResCommon)
    (this other request : ResConfigImpl) :
    this.IsMoreSuitable lm k (some other) (some request) =
      if request.mcc_ ≠ k.MCC_UNDEFINED ∧ request.mnc_ ≠ k.MNC_UNDEFINED then
        if this.mcc_ ≠ other.mcc_ ∨ this.mnc_ ≠ other.mnc_ then
          decide (this.mcc_ ≠ k.MCC_UNDEFINED ∧ this.mnc_ ≠ k.MNC_UNDEFINED)
        else suitableCascade lm k this other request
      else if request.mcc_ ≠ k.MCC_UNDEFINED ∧ request.mnc_ = k.MNC_UNDEFINED then
        if this.mcc_ ≠ other.mcc_ then decide (this.mcc_ ≠ k.MCC_UNDEFINED)
        else suitableCascade lm k this other request
      else suitableCascade lm k this other request := rfl

theorem IsMoreSuitable_eq_cascade (lm : LocaleMatcher) (k : ResCommon)
    (this other request : ResConfigImpl)
    (hmcc : this.mcc_ = other.mcc_) (hmnc : this.mnc_ = other.mnc_) :
    this.IsMoreSuitable lm k (some other) (some request) =
      suitableCascade lm k this other request := by
  rw [IsMoreSuitable_some]
  simp only [hmcc, hmnc, ne_eq, not_true_eq_false, or_self, if_false, ite_self]

theorem wildcard_step {a b r ns : Int} (ha : a = r ∨ a = ns ∨ r = ns)
    (hb : b = r ∨ b = ns ∨ r = ns) (hr : r ≠ ns) (hab : a ≠ b) (hset : a ≠ ns) : b = ns := by
  omega

theorem density_step {a b r : Int} (hab : a ≠ b)
    (h : (if a - r ≥ 0 ∧ b - r ≥ 0 then decide (a - r ≤ b - r)
          else if a - r > 0 then true
          else if b - r > 0 then false
          else decide (a - r ≥ b - r)) = true) :
    (a - r ≥ 0 ∧ (b - r < 0 ∨ a < b)) ∨ (a - r < 0 ∧ b < a) := by
  split_ifs at h <;> simp only [decide_eq_true_eq, reduceCtorEq] at h <;> omega

theorem Requests_symm {k : ResCommon} {R X Y : ResConfigImpl} (h : Requests k R X Y) :
    Requests k R Y X := by
  obtain ⟨r1, r2, r3, r4, r5⟩ := h
  refine ⟨fun c => r1 ?_, fun c => r2 (Ne.symm c), fun c => r3 (Ne.symm c),
    fun c => r4 (Ne.symm c), fun c => r5 (Ne.symm c)⟩
  rcases c with c | c
  · exact Or.inl (Ne.symm c)
  · exact Or.inr (Ne.symm c)

theorem ScalarsDiffer_symm {X Y : ResConfigImpl} (h : ScalarsDiffer X Y) :
    ScalarsDiffer Y X := by
  unfold ScalarsDiffer at h ⊢
  rcases h with c | c | c | c | c | c
  · exact Or.inl (Ne.symm c)
  · exact Or.inr (Or.inl (Ne.symm c))
  · exact Or.inr (Or.inr (Or.inl (Ne.symm c)))
  · exact Or.inr (Or.inr (Or.inr (Or.inl (Ne.symm c))))
  · exact Or.inr (Or.inr (Or.inr (Or.inr (Or.inl (Ne.symm c)))))
  · exact Or.inr (Or.inr (Or.inr (Or.inr (Or.inr (Ne.symm c)))))

/-- When both configs match a request that sets every scalar qualifier on
which they differ, a true `IsMoreSuitable` is decided either by a positive
locale comparison (the mcc/mnc pairs being equal) or, the locale comparison
being a tie whenever it is reached, by the first scalar qualifier on which
the two differ. -/
theorem IsMoreSuitable_decided (lm : LocaleMatcher) (k : ResCommon) (X Y R : ResConfigImpl)
    (hX : X.Match lm k (some R) = true) (hY : Y.Match lm k (some R) = true)
    (hreq : Requests k R X Y) (hdiff : ScalarsDiffer X Y)
    (h : X.IsMoreSuitable lm k (some Y) (some R) = true) :
    (X.mcc_ = Y.mcc_ ∧ X.mnc_ = Y.mnc_ ∧
        0 < lm.IsMoreSuitable X.resLocale_ Y.resLocale_ R.resLocale_) ∨
      ((X.mcc_ = Y.mcc_ ∧ X.mnc_ = Y.mnc_ →
          lm.IsMoreSuitable X.resLocale_ Y.resLocale_ R.resLocale_ = 0) ∧ Beats k R X Y) := by
  obtain ⟨⟨x1, -⟩, -, x3, x4, x5⟩ := (Match_some_iff lm k X R).mp hX
  obtain ⟨⟨y1, -⟩, -, y3, y4, y5⟩ := (Match_some_iff lm k Y R).mp hY
  obtain ⟨r1, r2, r3, r4, r5⟩ := hreq
  unfold ScalarsDiffer at hdiff
  unfold Beats
  by_cases hp : X.mcc_ ≠ Y.mcc_ ∨ X.mnc_ ≠ Y.mnc_
  · have hR := r1 hp
    rw [IsMoreSuitable_some, if_pos hR, if_pos hp, decide_eq_true_eq] at h
    refine Or.inr ⟨?_, Or.inl ⟨hp, h, ?_⟩⟩
    · intro e
      rcases hp with hp | hp
      · exact absurd e.1 hp
      · exact absurd e.2 hp
    by_contra hYf
    have hYf2 : Y.mcc_ ≠ k.MCC_UNDEFINED ∧ Y.mnc_ ≠ k.MNC_UNDEFINED := by
      constructor <;> (intro hc; exact hYf (by simp [hc]))
    have e1 := x1 h hR
    have e2 := y1 hYf2 hR
    rcases hp with hp | hp
    · exact hp (e1.1.trans e2.1.symm)
    · exact hp (e1.2.trans e2.2.symm)
  · have hmcc : X.mcc_ = Y.mcc_ := by
      by_contra hc; exact hp (Or.inl hc)
    have hmnc : X.mnc_ = Y.mnc_ := by
      by_contra hc; exact hp (Or.inr hc)
    rw [IsMoreSuitable_eq_cascade lm k X Y R hmcc hmnc] at h
    simp only [suitableCascade, GetResLocale] at h
    by_cases hpos : 0 < lm.IsMoreSuitable X.resLocale_ Y.resLocale_ R.resLocale_
    · exact Or.inl ⟨hmcc, hmnc, hpos⟩
    rw [if_neg hpos] at h
    by_cases hneg : lm.IsMoreSuitable X.resLocale_ Y.resLocale_ R.resLocale_ < 0
    · rw [if_pos hneg] at h
      exact absurd h (by decide)
    rw [if_neg hneg] at h
    have hzero : lm.IsMoreSuitable X.resLocale_ Y.resLocale_ R.resLocale_ = 0 := by
      clear h x1 x3 x4 x5 y1 y3 y4 y5 r1 r2 r3 r4 r5 hdiff hp hmcc hmnc
      omega
    refine Or.inr ⟨fun _ => hzero, Or.inr ⟨hmcc, hmnc, ?_⟩⟩
    by_cases hd : X.direction_ = Y.direction_
    · refine Or.inr ⟨hd, ?_⟩
      rw [if_neg (fun c => c.1 hd)] at h
      by_cases hv : X.deviceType_ = Y.deviceType_
      · refine Or.inr ⟨hv, ?_⟩
        rw [if_neg (fun c => c.1 hv)] at h
        by_cases hc : X.colorMode_ = Y.colorMode_
        · rw [if_neg (fun c => c.1 hc)] at h
          have hs : X.screenDensity_ ≠ Y.screenDensity_ := by
            rcases hdiff with e | e | e | e | e | e
            · exact absurd hmcc e
            · exact absurd hmnc e
            · exact absurd hd e
            · exact absurd hv e
            · exact absurd hc e
            · exact e
          rw [if_pos ⟨r5 hs, hs⟩] at h
          exact Or.inr ⟨hc, hs, density_step hs h⟩
        · rw [if_pos ⟨hc, r4 hc⟩, decide_eq_true_eq] at h
          exact Or.inl ⟨h, wildcard_step x5 y5 (r4 hc) hc h⟩
      · rw [if_pos ⟨hv, r3 hv⟩, decide_eq_true_eq] at h
        exact Or.inl ⟨h, wildcard_step x4 y4 (r3 hv) hv h⟩
    · rw [if_pos ⟨hd, r2 hd⟩, decide_eq_true_eq] at h
      exact Or.inl ⟨h, wildcard_step x3 y3 (r2 hd) hd h⟩

theorem beats_no_cycle (k : ResCommon) (R X Y Z : ResConfigImpl)
    (h1 : Beats k R X Y) (h2 : Beats k R Y Z) (h3 : Beats k R Z X) : False := by
  unfold Beats at h1 h2 h3
  omega

theorem beats_asymm (k : ResCommon) (R X Y : ResConfigImpl)
    (h1 : Beats k R X Y) (h2 : Beats k R Y X) : False := by
  unfold Beats at h1 h2
  omega

end ResConfigImpl

/-! ## The claims -/

open ResConfigImpl

/-- Claim C1. For every candidate `C` and every non-null request `R`,
`C.Match(R)` is true exactly when (1) the mcc/mnc rule passes: if `C` defines
both mcc and mnc and `R` defines both, the pairs are equal, and if `C`
defines mcc but not mnc and `R` defines mcc, the mcc values are equal;
(2) `LocaleMatcher::Match` holds on the two locales; (3) for each of
direction, device type and colour mode the two values are equal or one side
is unset. `C.Match(nullptr)` is false. -/
theorem Match_iff_rules (lm : LocaleMatcher) (k : ResCommon) (C R : ResConfigImpl) :
    (C.Match lm k (some R) = true ↔
      ((C.mcc_ ≠ k.MCC_UNDEFINED ∧ C.mnc_ ≠ k.MNC_UNDEFINED →
          R.mcc_ ≠ k.MCC_UNDEFINED ∧ R.mnc_ ≠ k.MNC_UNDEFINED →
          C.mcc_ = R.mcc_ ∧ C.mnc_ = R.mnc_) ∧
        (C.mcc_ ≠ k.MCC_UNDEFINED ∧ C.mnc_ = k.MNC_UNDEFINED →
          R.mcc_ ≠ k.MCC_UNDEFINED → C.mcc_ = R.mcc_)) ∧
      lm.Match C.resLocale_ R.resLocale_ = true ∧
      (C.direction_ = R.direction_ ∨ C.direction_ = k.DIRECTION_NOT_SET
        ∨ R.direction_ = k.DIRECTION_NOT_SET) ∧
      (C.deviceType_ = R.deviceType_ ∨ C.deviceType_ = k.DEVICE_NOT_SET
        ∨ R.deviceType_ = k.DEVICE_NOT_SET) ∧
      (C.colorMode_ = R.colorMode_ ∨ C.colorMode_ = k.COLOR_MODE_NOT_SET
        ∨ R.colorMode_ = k.COLOR_MODE_NOT_SET)) ∧
    C.Match lm k none = false :=
  ⟨Match_some_iff lm k C R, rfl⟩

/-- Claim C2, as amended. For a fixed request `R` and two configs `A` and `B`
that both match `R` and differ in at least one scalar qualifier, if `R` sets
every scalar qualifier on which `A` and `B` differ and the locale comparison
of `LocaleMatcher` is antisymmetric on their locales, then
`A.IsMoreSuitable(B, R)` and `B.IsMoreSuitable(A, R)` are not both true. -/
theorem IsMoreSuitable_not_both (lm : LocaleMatcher) (k : ResCommon) (A B R : ResConfigImpl)
    (hA : A.Match lm k (some R) = true) (hB : B.Match lm k (some R) = true)
    (hdiff : ScalarsDiffer A B) (hreq : Requests k R A B)
    (hloc : lm.IsMoreSuitable A.resLocale_ B.resLocale_ R.resLocale_
      = - lm.IsMoreSuitable B.resLocale_ A.resLocale_ R.resLocale_) :
    ¬ (A.IsMoreSuitable lm k (some B) (some R) = true ∧
        B.IsMoreSuitable lm k (some A) (some R) = true) := by
  rintro ⟨hab, hba⟩
  have h1 := IsMoreSuitable_decided lm k A B R hA hB hreq hdiff hab
  have h2 := IsMoreSuitable_decided lm k B A R hB hA (Requests_symm hreq)
    (ScalarsDiffer_symm hdiff) hba
  rcases h1 with ⟨e1, e2, p1⟩ | ⟨z1, b1⟩
  · rcases h2 with ⟨-, -, p2⟩ | ⟨z2, -⟩
    · omega
    · have := z2 ⟨e1.symm, e2.symm⟩
      omega
  · rcases h2 with ⟨e1, e2, p2⟩ | ⟨-, b2⟩
    · have := z1 ⟨e1.symm, e2.symm⟩
      omega
    · exact beats_asymm k R A B b1 b2

/-- Witness of claim C2: a config with direction 1 against one without a
direction, for a request with direction 1. -/
theorem IsMoreSuitable_not_both_witness :
    (ofDirection 1).Match specLocaleMatcher specCommon (some (ofDirection 1)) = true ∧
    plain.Match specLocaleMatcher specCommon (some (ofDirection 1)) = true ∧
    ¬ ((ofDirection 1).IsMoreSuitable specLocaleMatcher specCommon (some plain)
          (some (ofDirection 1)) = true ∧
        plain.IsMoreSuitable specLocaleMatcher specCommon (some (ofDirection 1))
          (some (ofDirection 1)) = true) :=
  ⟨by decide, by decide,
    IsMoreSuitable_not_both specLocaleMatcher specCommon (ofDirection 1) plain (ofDirection 1)
      (by decide) (by decide) (by decide) (by decide) (by decide)⟩

/-- Counterexample to claim C2 as stated: the request leaves the direction
unset, the two configs assert the directions 0 and 1, both match, differ in a
qualifier, hold no locale, and each is reported more suitable than the
other. -/
theorem IsMoreSuitable_both_true :
    (ofDirection 0).Match specLocaleMatcher specCommon (some plain) = true ∧
    (ofDirection 1).Match specLocaleMatcher specCommon (some plain) = true ∧
    ofDirection 0 ≠ ofDirection 1 ∧
    (ofDirection 0).IsMoreSuitable specLocaleMatcher specCommon (some (ofDirection 1))
      (some plain) = true ∧
    (ofDirection 1).IsMoreSuitable specLocaleMatcher specCommon (some (ofDirection 0))
      (some plain) = true := by
  decide

/-- Claim C3, as amended. `IsMoreSuitable` is reflexive: for every request
`R` and every config `A`, when the two locale comparisons of the locale of
`A` with itself return 0, `A.IsMoreSuitable(A, R)` is true. -/
theorem IsMoreSuitable_self (lm : LocaleMatcher) (k : ResCommon) (A R : ResConfigImpl)
    (h1 : lm.IsMoreSuitable A.resLocale_ A.resLocale_ R.resLocale_ = 0)
    (h2 : lm.IsMoreSpecificThan A.resLocale_ A.resLocale_ = 0) :
    A.IsMoreSuitable lm k (some A) (some R) = true := by
  simp only [IsMoreSuitable, IsMoreSpecificThan, GetResLocale, h1, h2, ne_eq,
    not_true_eq_false, or_self, false_and, if_false, ite_self, gt_iff_lt, lt_self_iff_false,
    and_false]

/-- Witness of claim C3: the config `enUS` against itself. -/
theorem IsMoreSuitable_self_witness :
    enUS.Match specLocaleMatcher specCommon (some enUS) = true ∧
    enUS.IsMoreSuitable specLocaleMatcher specCommon (some enUS) (some enUS) = true :=
  ⟨by decide, IsMoreSuitable_self specLocaleMatcher specCommon enUS enUS (by decide) (by decide)⟩

/-- Counterexample to claim C3 as stated: a config without a locale matches
the request and is reported more suitable than itself. -/
theorem IsMoreSuitable_self_true :
    noLocale.Match specLocaleMatcher specCommon (some noLocale) = true ∧
    noLocale.IsMoreSuitable specLocaleMatcher specCommon (some noLocale) (some noLocale)
      = true := by
  decide

/-- Claim C4, as amended. For a fixed request `R` and configs `A`, `B`, `C`
that each match `R`, pairwise differ in at least one scalar qualifier, and
whose locale comparisons tie, if `R` sets every scalar qualifier on which two
of them differ, then `A.IsMoreSuitable(B, R)`, `B.IsMoreSuitable(C, R)` and
`C.IsMoreSuitable(A, R)` are not all true. -/
theorem IsMoreSuitable_no_cycle (lm : LocaleMatcher) (k : ResCommon) (A B C R : ResConfigImpl)
    (hA : A.Match lm k (some R) = true) (hB : B.Match lm k (some R) = true)
    (hC : C.Match lm k (some R) = true)
    (dAB : ScalarsDiffer A B) (dBC : ScalarsDiffer B C) (dCA : ScalarsDiffer C A)
    (rAB : Requests k R A B) (rBC : Requests k R B C) (rCA : Requests k R C A)
    (lAB : lm.IsMoreSuitable A.resLocale_ B.resLocale_ R.resLocale_ = 0)
    (lBC : lm.IsMoreSuitable B.resLocale_ C.resLocale_ R.resLocale_ = 0)
    (lCA : lm.IsMoreSuitable C.resLocale_ A.resLocale_ R.resLocale_ = 0) :
    ¬ (A.IsMoreSuitable lm k (some B) (some R) = true ∧
        B.IsMoreSuitable lm k (some C) (some R) = true ∧
        C.IsMoreSuitable lm k (some A) (some R) = true) := by
  rintro ⟨hab, hbc, hca⟩
  have h1 := IsMoreSuitable_decided lm k A B R hA hB rAB dAB hab
  have h2 := IsMoreSuitable_decided lm k B C R hB hC rBC dBC hbc
  have h3 := IsMoreSuitable_decided lm k C A R hC hA rCA dCA hca
  rw [lAB] at h1
  rw [lBC] at h2
  rw [lCA] at h3
  rcases h1 with ⟨-, -, p⟩ | ⟨-, b1⟩
  · exact absurd p (lt_irrefl 0)
  rcases h2 with ⟨-, -, p⟩ | ⟨-, b2⟩
  · exact absurd p (lt_irrefl 0)
  rcases h3 with ⟨-, -, p⟩ | ⟨-, b3⟩
  · exact absurd p (lt_irrefl 0)
  exact beats_no_cycle k R A B C b1 b2 b3

/-- Witness of claim C4: the screen densities 160, 240 and 320 for a request
with screen density 240. -/
theorem IsMoreSuitable_no_cycle_witness :
    ¬ ((ofDensity 160).IsMoreSuitable specLocaleMatcher specCommon (some (ofDensity 240))
          (some (ofDensity 240)) = true ∧
        (ofDensity 240).IsMoreSuitable specLocaleMatcher specCommon (some (ofDensity 320))
          (some (ofDensity 240)) = true ∧
        (ofDensity 320).IsMoreSuitable specLocaleMatcher specCommon (some (ofDensity 160))
          (some (ofDensity 240)) = true) :=
  IsMoreSuitable_no_cycle specLocaleMatcher specCommon (ofDensity 160) (ofDensity 240)
    (ofDensity 320) (ofDensity 240) (by decide) (by decide) (by decide) (by decide) (by decide)
    (by decide) (by decide) (by decide) (by decide) (by decide) (by decide) (by decide)

/-- Counterexample to claim C4 as stated: the request leaves the device type
unset, three configs assert the device types 0, 1 and 2, each matches, and
the three preferences form a cycle; so do those of one config taken three
times. -/
theorem IsMoreSuitable_cycle :
    ((ofDeviceType 0).Match specLocaleMatcher specCommon (some plain) = true ∧
      (ofDeviceType 1).Match specLocaleMatcher specCommon (some plain) = true ∧
      (ofDeviceType 2).Match specLocaleMatcher specCommon (some plain) = true ∧
      (ofDeviceType 0).IsMoreSuitable specLocaleMatcher specCommon (some (ofDeviceType 1))
        (some plain) = true ∧
      (ofDeviceType 1).IsMoreSuitable specLocaleMatcher specCommon (some (ofDeviceType 2))
        (some plain) = true ∧
      (ofDeviceType 2).IsMoreSuitable specLocaleMatcher specCommon (some (ofDeviceType 0))
        (some plain) = true) ∧
    (noLocale.Match specLocaleMatcher specCommon (some noLocale) = true ∧
      noLocale.IsMoreSuitable specLocaleMatcher specCommon (some noLocale) (some noLocale)
        = true) := by
  decide

/-- Claim C5. For every request `R` with the screen density set and configs
`A`, `B` with equal mcc, mnc, direction, device type and colour mode, a tie
on the locale comparison and different screen densities,
`A.IsMoreSuitable(B, R)` is true exactly when, with `dA` and `dB` the signed
differences of the densities of `A` and `B` to that of `R`, either `dA ≥ 0`
and (`dB < 0` or `dA < dB`), or `dA < 0`, `dB < 0` and `dA > dB`. -/
theorem IsMoreSuitable_density (lm : LocaleMatcher) (k : ResCommon) (A B R : ResConfigImpl)
    (hR : R.screenDensity_ ≠ k.SCREEN_DENSITY_NOT_SET)
    (hmcc : A.mcc_ = B.mcc_) (hmnc : A.mnc_ = B.mnc_)
    (hdir : A.direction_ = B.direction_) (hdev : A.deviceType_ = B.deviceType_)
    (hcol : A.colorMode_ = B.colorMode_)
    (hloc : lm.IsMoreSuitable A.resLocale_ B.resLocale_ R.resLocale_ = 0)
    (hne : A.screenDensity_ ≠ B.screenDensity_) :
    A.IsMoreSuitable lm k (some B) (some R) = true ↔
      (A.screenDensity_ - R.screenDensity_ ≥ 0 ∧
        (B.screenDensity_ - R.screenDensity_ < 0 ∨
          A.screenDensity_ - R.screenDensity_ < B.screenDensity_ - R.screenDensity_)) ∨
      (A.screenDensity_ - R.screenDensity_ < 0 ∧ B.screenDensity_ - R.screenDensity_ < 0 ∧
        A.screenDensity_ - R.screenDensity_ > B.screenDensity_ - R.screenDensity_) := by
  simp only [IsMoreSuitable, GetResLocale, hloc, hmcc, hmnc, hdir, hdev, hcol, ne_eq,
    not_true_eq_false, or_self, false_and, if_false, ite_self, gt_iff_lt, lt_self_iff_false,
    hR, hne, not_false_eq_true, and_self, if_true]
  split_ifs <;> simp only [decide_eq_true_eq, reduceCtorEq, false_iff, true_iff] <;> omega

/-- Witness of claim C5: with the request density 240, 240 beats each of
160, 320 and 480, 320 beats 160 and 480 beats 160, and each reverse
comparison is false. -/
theorem IsMoreSuitable_density_witness :
    ((ofDensity 240).IsMoreSuitable specLocaleMatcher specCommon (some (ofDensity 160))
        (some (ofDensity 240)) = true ∧
      (ofDensity 240).IsMoreSuitable specLocaleMatcher specCommon (some (ofDensity 320))
        (some (ofDensity 240)) = true ∧
      (ofDensity 240).IsMoreSuitable specLocaleMatcher specCommon (some (ofDensity 480))
        (some (ofDensity 240)) = true ∧
      (ofDensity 320).IsMoreSuitable specLocaleMatcher specCommon (some (ofDensity 160))
        (some (ofDensity 240)) = true ∧
      (ofDensity 480).IsMoreSuitable specLocaleMatcher specCommon (some (ofDensity 160))
        (some (ofDensity 240)) = true) ∧
    (¬ (ofDensity 160).IsMoreSuitable specLocaleMatcher specCommon (some (ofDensity 240))
        (some (ofDensity 240)) = true ∧
      ¬ (ofDensity 320).IsMoreSuitable specLocaleMatcher specCommon (some (ofDensity 240))
        (some (ofDensity 240)) = true ∧
      ¬ (ofDensity 480).IsMoreSuitable specLocaleMatcher specCommon (some (ofDensity 240))
        (some (ofDensity 240)) = true ∧
      ¬ (ofDensity 160).IsMoreSuitable specLocaleMatcher specCommon (some (ofDensity 320))
        (some (ofDensity 240)) = true ∧
      ¬ (ofDensity 160).IsMoreSuitable specLocaleMatcher specCommon (some (ofDensity 480))
        (some (ofDensity 240)) = true) :=
  have beats : ∀ a b : Int, a ≠ b → ((ofDensity a).IsMoreSuitable specLocaleMatcher specCommon
      (some (ofDensity b)) (some (ofDensity 240)) = true ↔
        (a - 240 ≥ 0 ∧ (b - 240 < 0 ∨ a - 240 < b - 240)) ∨
          (a - 240 < 0 ∧ b - 240 < 0 ∧ a - 240 > b - 240)) := fun a b hab =>
    IsMoreSuitable_density specLocaleMatcher specCommon (ofDensity a) (ofDensity b)
      (ofDensity 240) (by decide) rfl rfl rfl rfl rfl rfl hab
  ⟨⟨(beats 240 160 (by decide)).mpr (by decide), (beats 240 320 (by decide)).mpr (by decide),
      (beats 240 480 (by decide)).mpr (by decide), (beats 320 160 (by decide)).mpr (by decide),
      (beats 480 160 (by decide)).mpr (by decide)⟩,
    ⟨fun h => absurd ((beats 160 240 (by decide)).mp h) (by decide),
      fun h => absurd ((beats 320 240 (by decide)).mp h) (by decide),
      fun h => absurd ((beats 480 240 (by decide)).mp h) (by decide),
      fun h => absurd ((beats 160 320 (by decide)).mp h) (by decide),
      fun h => absurd ((beats 160 480 (by decide)).mp h) (by decide)⟩⟩

/-- Claim C6, as amended. For a request `R` with mcc 460 and mnc 0 and the
candidates `A` (mcc 460, mnc 0), `B` (mcc 460, mnc undefined) and `C` (mcc
and mnc undefined), identical in every other qualifier, `IsMoreSuitable`
ranks `A` above `B` and above `C` and does not rank `B` against `C`:
`A.IsMoreSuitable(B, R)` and `A.IsMoreSuitable(C, R)` are true,
`B.IsMoreSuitable(C, R)` is false, and the three reverse comparisons are
false. -/
theorem IsMoreSuitable_carrier (lm : LocaleMatcher) (k : ResCommon) (X R : ResConfigImpl)
    (hmcc : 460 ≠ k.MCC_UNDEFINED) (hmnc : 0 ≠ k.MNC_UNDEFINED)
    (hRmcc : R.mcc_ = 460) (hRmnc : R.mnc_ = 0) :
    (((X.SetMcc 460).SetMnc 0).IsMoreSuitable lm k
          (some ((X.SetMcc 460).SetMnc k.MNC_UNDEFINED)) (some R) = true ∧
      ((X.SetMcc 460).SetMnc 0).IsMoreSuitable lm k
          (some ((X.SetMcc k.MCC_UNDEFINED).SetMnc k.MNC_UNDEFINED)) (some R) = true ∧
      ((X.SetMcc 460).SetMnc k.MNC_UNDEFINED).IsMoreSuitable lm k
          (some ((X.SetMcc k.MCC_UNDEFINED).SetMnc k.MNC_UNDEFINED)) (some R) = false) ∧
    (((X.SetMcc 460).SetMnc k.MNC_UNDEFINED).IsMoreSuitable lm k
          (some ((X.SetMcc 460).SetMnc 0)) (some R) = false ∧
      ((X.SetMcc k.MCC_UNDEFINED).SetMnc k.MNC_UNDEFINED).IsMoreSuitable lm k
          (some ((X.SetMcc 460).SetMnc k.MNC_UNDEFINED)) (some R) = false ∧
      ((X.SetMcc k.MCC_UNDEFINED).SetMnc k.MNC_UNDEFINED).IsMoreSuitable lm k
          (some ((X.SetMcc 460).SetMnc 0)) (some R) = false) := by
  have h1 : ¬ (460 = k.MCC_UNDEFINED) := hmcc
  have h2 : ¬ (0 = k.MNC_UNDEFINED) := hmnc
  have h3 : ¬ (k.MNC_UNDEFINED = 0) := fun h => hmnc h.symm
  have h4 : ¬ (k.MCC_UNDEFINED = 460) := fun h => hmcc h.symm
  simp only [IsMoreSuitable, SetMcc, SetMnc, hRmcc, hRmnc, ne_eq, h1, h2, h3, h4,
    not_false_eq_true, and_self, if_true, not_true_eq_false, or_false, false_or, or_true,
    true_or, and_false, false_and, decide_True, decide_False, and_true]

/-- Witness of claim C6: the three candidates built on the config `enUS`, for
the request `carrierFull`. -/
theorem IsMoreSuitable_carrier_witness :
    ((enUS.SetMcc 460).SetMnc 0).IsMoreSuitable specLocaleMatcher specCommon
        (some ((enUS.SetMcc 460).SetMnc specCommon.MNC_UNDEFINED)) (some carrierFull) = true ∧
    ((enUS.SetMcc 460).SetMnc specCommon.MNC_UNDEFINED).IsMoreSuitable specLocaleMatcher
        specCommon (some ((enUS.SetMcc 460).SetMnc 0)) (some carrierFull) = false :=
  have h := IsMoreSuitable_carrier specLocaleMatcher specCommon enUS carrierFull
    (by decide) (by decide) rfl rfl
  ⟨h.1.1, h.2.1⟩

/-- Counterexample to claim C6 as stated: for the request with mcc 460 and
mnc 0, the candidate with mcc 460 alone and the candidate with neither both
match, and the former is not reported more suitable than the latter. -/
theorem IsMoreSuitable_carrier_unranked :
    carrierMcc.Match specLocaleMatcher specCommon (some carrierFull) = true ∧
    plain.Match specLocaleMatcher specCommon (some carrierFull) = true ∧
    carrierMcc.IsMoreSuitable specLocaleMatcher specCommon (some plain) (some carrierFull)
      = false := by
  decide

/-- Claim C7. Screen density never affects eligibility: `Match` gives the
same result on two candidates that differ in the screen density only, and on
two requests that differ in the screen density only. -/
theorem Match_ignores_screenDensity (lm : LocaleMatcher) (k : ResCommon)
    (A R : ResConfigImpl) (request : Option ResConfigImpl) (d : Int) :
    ({ A with screenDensity_ := d } : ResConfigImpl).Match lm k request = A.Match lm k request ∧
    A.Match lm k (some { R with screenDensity_ := d }) = A.Match lm k (some R) := by
  constructor
  · cases request <;> rfl
  · rfl

/-- Claim C8. When `this` holds a locale (a `ResLocale` and a locale info) and
`other` holds none, `this.Copy(other)` returns true and afterwards `this`
holds neither a `ResLocale` nor a locale info. -/
theorem Copy_clears_locale (rt : Runtime) (this other : ResConfigImpl)
    (hthis : this.resLocale_.isSome = true ∧ this.localeInfo_.isSome = true)
    (hother : other.resLocale_ = none ∧ other.localeInfo_ = none) :
    (this.Copy rt other).ret = true ∧
      (this.Copy rt other).self.resLocale_ = none ∧
      (this.Copy rt other).self.localeInfo_ = none := by
  have h : this.CopyLocale rt other =
      ⟨true, { this with resLocale_ := none, localeInfo_ := none }, other⟩ := by
    unfold CopyLocale
    simp only [GetLocaleInfo, hthis.2, hother.2, Option.isNone_none, Bool.and_self, if_true]
  rw [Copy_eq, h]
  exact ⟨rfl, rfl, rfl⟩

/-- Witness of claim C8: `enUS` holds the locale en-Latn-US, `noLocale` holds
none. -/
theorem Copy_clears_locale_witness :
    (enUS.resLocale_.isSome = true ∧ enUS.localeInfo_.isSome = true) ∧
    (enUS.Copy plainRuntime noLocale).ret = true ∧
    (enUS.Copy plainRuntime noLocale).self.resLocale_ = none ∧
    (enUS.Copy plainRuntime noLocale).self.localeInfo_ = none :=
  ⟨by decide, Copy_clears_locale plainRuntime enUS noLocale (by decide) (by decide)⟩

/-- Claim C9. Whenever `this.Copy(other)` returns true, afterwards the device
type, direction, colour mode, mcc, mnc and screen density of `this` are those
of `other`, and `other` is unchanged. -/
theorem Copy_scalars (rt : Runtime) (this other : ResConfigImpl)
    (h : (this.Copy rt other).ret = true) :
    (this.Copy rt other).self.deviceType_ = other.deviceType_ ∧
    (this.Copy rt other).self.direction_ = other.direction_ ∧
    (this.Copy rt other).self.colorMode_ = other.colorMode_ ∧
    (this.Copy rt other).self.mcc_ = other.mcc_ ∧
    (this.Copy rt other).self.mnc_ = other.mnc_ ∧
    (this.Copy rt other).self.screenDensity_ = other.screenDensity_ ∧
    (this.Copy rt other).other = other := by
  rw [Copy_eq] at h ⊢
  split_ifs at h ⊢ with hc
  exact ⟨rfl, rfl, rfl, rfl, rfl, rfl, rfl⟩

/-- Witness of claim C9: copying `enUS`, which holds a locale, into
`noLocale`, which holds none, succeeds and yields `enUS`. -/
theorem Copy_scalars_witness :
    (noLocale.Copy plainRuntime enUS).ret = true ∧
    (noLocale.Copy plainRuntime enUS).self.deviceType_ = 0 ∧
    (noLocale.Copy plainRuntime enUS).self.screenDensity_ = 320 ∧
    (noLocale.Copy plainRuntime enUS).self.mcc_ = specCommon.MCC_UNDEFINED ∧
    (noLocale.Copy plainRuntime enUS).other = enUS :=
  have h := Copy_scalars plainRuntime noLocale enUS (by decide)
  ⟨by decide, h.1, h.2.2.2.2.2.1, h.2.2.2.1, h.2.2.2.2.2.2⟩

/-- Claim C10. Self-match: for every config `A` on whose locale
`LocaleMatcher::Match` is true when paired with itself (an absent locale
included), `A.Match(A)` is true. -/
theorem Match_self (lm : LocaleMatcher) (k : ResCommon) (A : ResConfigImpl)
    (h : lm.Match A.resLocale_ A.resLocale_ = true) : A.Match lm k (some A) = true := by
  simp [Match, GetResLocale, h]

/-- Witness of claim C10: the configs `enUS` and `noLocale`. -/
theorem Match_self_witness :
    enUS.Match specLocaleMatcher specCommon (some enUS) = true ∧
    noLocale.Match specLocaleMatcher specCommon (some noLocale) = true :=
  ⟨Match_self specLocaleMatcher specCommon enUS (by decide),
    Match_self specLocaleMatcher specCommon noLocale (by decide)⟩

/-! ## Further lemmas -/

/-- A failing `CopyLocale` leaves `this` as it was. -/
theorem CopyLocale_self_of_fail (rt : Runtime) (this other : ResConfigImpl)
    (h : (this.CopyLocale rt other).ret = false) : (this.CopyLocale rt other).self = this := by
  unfold CopyLocale at h ⊢
  simp only at h ⊢
  repeat' split
  all_goals first | rfl | (simp_all)

/-- When the mcc/mnc block of `IsMoreSuitable` does not return, the result is
that of the cascade. -/
theorem IsMoreSuitable_eq_cascade_of_undecided (lm : LocaleMatcher) (k : ResCommon)
    (A B R : ResConfigImpl)
    (h1 : R.mcc_ ≠ k.MCC_UNDEFINED ∧ R.mnc_ ≠ k.MNC_UNDEFINED →
      A.mcc_ = B.mcc_ ∧ A.mnc_ = B.mnc_)
    (h2 : R.mcc_ ≠ k.MCC_UNDEFINED ∧ R.mnc_ = k.MNC_UNDEFINED → A.mcc_ = B.mcc_) :
    A.IsMoreSuitable lm k (some B) (some R) = suitableCascade lm k A B R := by
  rw [IsMoreSuitable_some]
  by_cases c1 : R.mcc_ ≠ k.MCC_UNDEFINED ∧ R.mnc_ ≠ k.MNC_UNDEFINED
  · have e := h1 c1
    rw [if_pos c1, if_neg (by simp [e.1, e.2])]
  · rw [if_neg c1]
    by_cases c2 : R.mcc_ ≠ k.MCC_UNDEFINED ∧ R.mnc_ = k.MNC_UNDEFINED
    · rw [if_pos c2, if_neg (by simp [h2 c2])]
    · rw [if_neg c2]

/-- The result of `IsMoreSuitable` when the request defines both mcc and mnc
and the (mcc, mnc) pairs of the two configs differ. -/
theorem IsMoreSuitable_of_pairs_differ (lm : LocaleMatcher) (k : ResCommon)
    (A B R : ResConfigImpl)
    (hR : R.mcc_ ≠ k.MCC_UNDEFINED ∧ R.mnc_ ≠ k.MNC_UNDEFINED)
    (hp : A.mcc_ ≠ B.mcc_ ∨ A.mnc_ ≠ B.mnc_) :
    A.IsMoreSuitable lm k (some B) (some R) =
      decide (A.mcc_ ≠ k.MCC_UNDEFINED ∧ A.mnc_ ≠ k.MNC_UNDEFINED) := by
  rw [IsMoreSuitable_some, if_pos hR, if_pos hp]

/-- The result of `IsMoreSuitable` when the request defines mcc only and the
two configs differ in mcc. -/
theorem IsMoreSuitable_of_mcc_differ (lm : LocaleMatcher) (k : ResCommon)
    (A B R : ResConfigImpl)
    (hR : R.mcc_ ≠ k.MCC_UNDEFINED ∧ R.mnc_ = k.MNC_UNDEFINED) (hp : A.mcc_ ≠ B.mcc_) :
    A.IsMoreSuitable lm k (some B) (some R) = decide (A.mcc_ ≠ k.MCC_UNDEFINED) := by
  rw [IsMoreSuitable_some, if_neg (fun c => c.2 hR.2), if_pos hR, if_pos hp]

/-- The spec-modelled `Normalize` leaves the locale unchanged when it returns
false. -/
theorem specNormalize_false (l : ResLocale) (h : (specNormalize l).1 = false) :
    (specNormalize l).2 = l := by
  unfold specNormalize at h ⊢
  split
  · rename_i hs
    rw [if_pos hs] at h
    split
    · rename_i e
      rw [e] at h
      exact Bool.noConfusion h
    · rfl
  · rfl

/-! ## The claims, continued -/

/-- Claim C11, evaluated on the code. Starting from a default-constructed
config, a successful `SetLocaleInfo(language, "", region)` whose script is
completed by `Normalize`, followed by `SetLocaleInfo` with an empty language,
leaves a config that holds no locale and whose `IsCompletedScript()` is still
true: the clearing path does not reset the flag. -/
theorem IsCompletedScript_stale_after_clear (lf : LocaleFactory) (k : ResCommon)
    (language region empty s r : Option String)
    (hlang : IsStrEmpty language = false) (hempty : IsStrEmpty empty = true)
    (hbuilt : (lf.BuildFromParts language (some "") region).1 = RState.SUCCESS)
    (hnorm : (lf.Normalize (lf.BuildFromParts language (some "") region).2).1 = true)
    (hbuild : (lf.build (lf.Normalize (lf.BuildFromParts language (some "") region).2).2).isSome
      = true) :
    (((ResConfigImpl.new k).SetLocaleInfo lf language (some "") region).1 = RState.SUCCESS ∧
      (((ResConfigImpl.new k).SetLocaleInfo lf language (some "") region).2.SetLocaleInfo lf
        empty s r).1 = RState.SUCCESS) ∧
    (((ResConfigImpl.new k).SetLocaleInfo lf language (some "") region).2.SetLocaleInfo lf
        empty s r).2.resLocale_ = none ∧
    (((ResConfigImpl.new k).SetLocaleInfo lf language (some "") region).2.SetLocaleInfo lf
        empty s r).2.localeInfo_ = none ∧
    (((ResConfigImpl.new k).SetLocaleInfo lf language (some "") region).2.SetLocaleInfo lf
        empty s r).2.IsCompletedScript = true := by
  obtain ⟨loc, hloc⟩ := Option.isSome_iff_exists.mp hbuild
  have h0 : ((ResConfigImpl.new k).SetLocaleInfo lf language (some "") region).1
      = RState.SUCCESS := by
    simp [SetLocaleInfo, hlang, hbuilt, hnorm, hloc]
  have h1 : ((ResConfigImpl.new k).SetLocaleInfo lf language (some "") region).2.isCompletedScript_
      = true := by
    simp [SetLocaleInfo, hlang, hbuilt, hnorm, hloc]
  have h2 : ∀ c : ResConfigImpl, c.SetLocaleInfo lf empty s r =
      (RState.SUCCESS, { c with resLocale_ := none, localeInfo_ := none }) := by
    intro c
    simp only [SetLocaleInfo, hempty, if_true]
  rw [h2]
  exact ⟨⟨h0, rfl⟩, rfl, rfl, h1⟩

/-- Witness of claim C11: `SetLocaleInfo("en", "", "US")` followed by
`SetLocaleInfo("", "", "")` on a default-constructed config. -/
theorem IsCompletedScript_stale_after_clear_witness :
    (((ResConfigImpl.new specCommon).SetLocaleInfo specLocaleFactory (some "en") (some "")
        (some "US")).2.SetLocaleInfo specLocaleFactory (some "") (some "") (some "")).2.resLocale_
      = none ∧
    (((ResConfigImpl.new specCommon).SetLocaleInfo specLocaleFactory (some "en") (some "")
        (some "US")).2.SetLocaleInfo specLocaleFactory (some "") (some "")
        (some "")).2.IsCompletedScript = true :=
  have h := IsCompletedScript_stale_after_clear specLocaleFactory specCommon (some "en")
    (some "US") (some "") (some "") (some "") (by decide) (by decide) (by decide) (by decide)
    (by decide)
  ⟨h.2.1, h.2.2.2⟩

/-- Claim C12, evaluated on the code. For configs identical except in mcc and
mnc, with the locale comparison tied: a config that defines both mcc and mnc
is reported not more specific than the one that defines neither, and the
config that defines neither is reported more specific than one that defines
both, and than one that defines mcc alone. -/
theorem IsMoreSpecificThan_carrier_inverted (lm : LocaleMatcher) (k : ResCommon)
    (X : ResConfigImpl) (m n : Nat)
    (hm : m ≠ k.MCC_UNDEFINED) (hn : n ≠ k.MNC_UNDEFINED)
    (hloc : lm.IsMoreSpecificThan X.resLocale_ X.resLocale_ = 0) :
    ((X.SetMcc m).SetMnc n).IsMoreSpecificThan lm k
        (some ((X.SetMcc k.MCC_UNDEFINED).SetMnc k.MNC_UNDEFINED)) = false ∧
    ((X.SetMcc k.MCC_UNDEFINED).SetMnc k.MNC_UNDEFINED).IsMoreSpecificThan lm k
        (some ((X.SetMcc m).SetMnc n)) = true ∧
    ((X.SetMcc k.MCC_UNDEFINED).SetMnc k.MNC_UNDEFINED).IsMoreSpecificThan lm k
        (some ((X.SetMcc m).SetMnc k.MNC_UNDEFINED)) = true := by
  have hm2 : ¬ (m = k.MCC_UNDEFINED) := hm
  have hn2 : ¬ (n = k.MNC_UNDEFINED) := hn
  simp only [IsMoreSpecificThan, SetMcc, SetMnc, GetResLocale, hloc, ne_eq, hm2, hn2,
    not_false_eq_true, and_self, true_or, or_true, if_true, not_true_eq_false, false_and,
    and_false, if_false, gt_iff_lt, lt_self_iff_false, and_true]

/-- Witness of claim C12: mcc 460 and mnc 1 on the config `enUS`. -/
theorem IsMoreSpecificThan_carrier_inverted_witness :
    ((enUS.SetMcc 460).SetMnc 1).IsMoreSpecificThan specLocaleMatcher specCommon
        (some ((enUS.SetMcc specCommon.MCC_UNDEFINED).SetMnc specCommon.MNC_UNDEFINED)) = false ∧
    ((enUS.SetMcc specCommon.MCC_UNDEFINED).SetMnc specCommon.MNC_UNDEFINED).IsMoreSpecificThan
        specLocaleMatcher specCommon (some ((enUS.SetMcc 460).SetMnc 1)) = true :=
  have h := IsMoreSpecificThan_carrier_inverted specLocaleMatcher specCommon enUS 460 1
    (by decide) (by decide) (by decide)
  ⟨h.1, h.2.1⟩

/-- Claim C13. `SetLocaleInfo` with an empty or null language returns
`SUCCESS`, leaves the config holding no locale, and leaves the device type,
direction, colour mode, mcc, mnc and screen density unchanged. -/
theorem SetLocaleInfo_empty_language (lf : LocaleFactory) (this : ResConfigImpl)
    (language script region : Option String) (h : IsStrEmpty language = true) :
    (this.SetLocaleInfo lf language script region).1 = RState.SUCCESS ∧
    (this.SetLocaleInfo lf language script region).2.resLocale_ = none ∧
    (this.SetLocaleInfo lf language script region).2.localeInfo_ = none ∧
    (this.SetLocaleInfo lf language script region).2.deviceType_ = this.deviceType_ ∧
    (this.SetLocaleInfo lf language script region).2.direction_ = this.direction_ ∧
    (this.SetLocaleInfo lf language script region).2.colorMode_ = this.colorMode_ ∧
    (this.SetLocaleInfo lf language script region).2.mcc_ = this.mcc_ ∧
    (this.SetLocaleInfo lf language script region).2.mnc_ = this.mnc_ ∧
    (this.SetLocaleInfo lf language script region).2.screenDensity_ = this.screenDensity_ := by
  simp only [SetLocaleInfo, h, if_true, and_self]

/-- Witness of claim C13: the empty language, and the null language, on the
config `enUS`. -/
theorem SetLocaleInfo_empty_language_witness :
    ((enUS.SetLocaleInfo specLocaleFactory (some "") (some "Latn") (some "US")).1
        = RState.SUCCESS ∧
      (enUS.SetLocaleInfo specLocaleFactory (some "") (some "Latn") (some "US")).2.resLocale_
        = none) ∧
    ((enUS.SetLocaleInfo specLocaleFactory none none none).2.localeInfo_ = none ∧
      (enUS.SetLocaleInfo specLocaleFactory none none none).2.screenDensity_ = 320) :=
  have h1 := SetLocaleInfo_empty_language specLocaleFactory enUS (some "") (some "Latn")
    (some "US") (by decide)
  have h2 := SetLocaleInfo_empty_language specLocaleFactory enUS none none none (by decide)
  ⟨⟨h1.1, h1.2.1⟩, ⟨h2.2.2.1, h2.2.2.2.2.2.2.2.2⟩⟩

/-- Claim C14. Script completion is idempotent: when `Normalize` leaves the
locale unchanged whenever it returns false, calling `CompleteScript()` twice
leaves the config in the same state as calling it once. -/
theorem CompleteScript_idempotent (lf : LocaleFactory) (this : ResConfigImpl)
    (hfalse : ∀ l, (lf.Normalize l).1 = false → (lf.Normalize l).2 = l) :
    (this.CompleteScript lf).CompleteScript lf = this.CompleteScript lf := by
  obtain ⟨rl, d, sd, c, m, n, t, li, flag⟩ := this
  cases flag
  · cases rl with
    | none =>
      cases hn : lf.NormalizeNull <;> simp [CompleteScript, hn]
    | some l =>
      cases hn : (lf.Normalize l).1
      · have := hfalse l hn
        simp [CompleteScript, hn, this]
      · simp [CompleteScript, hn]
  · simp [CompleteScript]

/-- Witness of claim C14: completing the script of en-US, which becomes
en-Latn-US. -/
theorem CompleteScript_idempotent_witness :
    (enScriptless.CompleteScript specLocaleFactory).resLocale_ = some ⟨"en", "Latn", "US"⟩ ∧
    (enScriptless.CompleteScript specLocaleFactory).CompleteScript specLocaleFactory
      = enScriptless.CompleteScript specLocaleFactory :=
  ⟨by decide, CompleteScript_idempotent specLocaleFactory enScriptless specNormalize_false⟩

/-- Claim C15. For every config `X`, `X.IsMoreSpecificThan(nullptr)` is true,
and `X.IsMoreSuitable(nullptr, R)` is true for every request `R`, null
included. -/
theorem IsMoreSpecificThan_null (lm : LocaleMatcher) (k : ResCommon) (X : ResConfigImpl)
    (R : Option ResConfigImpl) :
    X.IsMoreSpecificThan lm k none = true ∧ X.IsMoreSuitable lm k none R = true := by
  constructor
  · rfl
  · cases R <;> rfl

/-- Claim C16, as amended. When the deep copy of the locale fails,
`this.Copy(other)` returns false and leaves `this` as it was, scalar
qualifiers included; `other` is unchanged. -/
theorem Copy_fail_unchanged (rt : Runtime) (this other : ResConfigImpl)
    (h : (this.CopyLocale rt other).ret = false) :
    (this.Copy rt other).ret = false ∧ (this.Copy rt other).self = this ∧
    (this.Copy rt other).other = other := by
  rw [Copy_eq, if_neg (by simp [h])]
  exact ⟨rfl, CopyLocale_self_of_fail rt this other h, rfl⟩

/-- Witness of claim C16: copying `enUS` into a default-constructed config
when the allocation of the `ResLocale` fails. -/
theorem Copy_fail_unchanged_witness :
    (plain.CopyLocale failingRuntime enUS).ret = false ∧
    (plain.Copy failingRuntime enUS).ret = false ∧
    (plain.Copy failingRuntime enUS).self = plain :=
  have h := Copy_fail_unchanged failingRuntime plain enUS (by decide)
  ⟨by decide, h.1, h.2.1⟩

/-- Counterexample to claim C16 as stated: the deep copy of the locale
fails, `Copy` returns false, and the device type, direction and screen
density of `this`, which differ from those of `other`, have not been set to
the values of `other`. -/
theorem Copy_fail_scalars_kept :
    (plain.CopyLocale failingRuntime enUS).ret = false ∧
    (plain.Copy failingRuntime enUS).ret = false ∧
    (plain.deviceType_ ≠ enUS.deviceType_ ∧
      (plain.Copy failingRuntime enUS).self.deviceType_ ≠ enUS.deviceType_) ∧
    (plain.direction_ ≠ enUS.direction_ ∧
      (plain.Copy failingRuntime enUS).self.direction_ ≠ enUS.direction_) ∧
    (plain.screenDensity_ ≠ enUS.screenDensity_ ∧
      (plain.Copy failingRuntime enUS).self.screenDensity_ ≠ enUS.screenDensity_) := by
  decide

/-- Claim C17. The mcc/mnc step of `IsMoreSuitable` decides first and alone.
(a) If `R` defines both mcc and mnc and the (mcc, mnc) pairs of `A` and `B`
differ, `A.IsMoreSuitable(B, R)` is true exactly when `A` defines both mcc and
mnc. (b) If `R` defines mcc but not mnc and the mcc of `A` and `B` differ, it
is true exactly when `A` defines mcc. In both cases the result is the same
for any configs `A2`, `B2`, `R2` with the mcc and mnc of `A`, `B`, `R` and any
locale matcher, whatever their locale, direction, device type, colour mode
and screen density. -/
theorem IsMoreSuitable_carrier_first (lm lm2 : LocaleMatcher) (k : ResCommon)
    (A B R A2 B2 R2 : ResConfigImpl)
    (hA : A2.mcc_ = A.mcc_ ∧ A2.mnc_ = A.mnc_) (hB : B2.mcc_ = B.mcc_ ∧ B2.mnc_ = B.mnc_)
    (hR : R2.mcc_ = R.mcc_ ∧ R2.mnc_ = R.mnc_) :
    (R.mcc_ ≠ k.MCC_UNDEFINED ∧ R.mnc_ ≠ k.MNC_UNDEFINED →
      (A.mcc_ ≠ B.mcc_ ∨ A.mnc_ ≠ B.mnc_) →
      (A.IsMoreSuitable lm k (some B) (some R) = true ↔
          A.mcc_ ≠ k.MCC_UNDEFINED ∧ A.mnc_ ≠ k.MNC_UNDEFINED) ∧
        A2.IsMoreSuitable lm2 k (some B2) (some R2) = A.IsMoreSuitable lm k (some B) (some R)) ∧
    (R.mcc_ ≠ k.MCC_UNDEFINED ∧ R.mnc_ = k.MNC_UNDEFINED → A.mcc_ ≠ B.mcc_ →
      (A.IsMoreSuitable lm k (some B) (some R) = true ↔ A.mcc_ ≠ k.MCC_UNDEFINED) ∧
        A2.IsMoreSuitable lm2 k (some B2) (some R2) = A.IsMoreSuitable lm k (some B) (some R)) := by
  constructor
  · intro hfull hp
    have hfull2 : R2.mcc_ ≠ k.MCC_UNDEFINED ∧ R2.mnc_ ≠ k.MNC_UNDEFINED := by
      rw [hR.1, hR.2]; exact hfull
    have hp2 : A2.mcc_ ≠ B2.mcc_ ∨ A2.mnc_ ≠ B2.mnc_ := by
      rw [hA.1, hA.2, hB.1, hB.2]; exact hp
    rw [IsMoreSuitable_of_pairs_differ lm k A B R hfull hp,
      IsMoreSuitable_of_pairs_differ lm2 k A2 B2 R2 hfull2 hp2, hA.1, hA.2]
    exact ⟨decide_eq_true_iff, rfl⟩
  · intro hmcc hp
    have hmcc2 : R2.mcc_ ≠ k.MCC_UNDEFINED ∧ R2.mnc_ = k.MNC_UNDEFINED := by
      rw [hR.1, hR.2]; exact hmcc
    have hp2 : A2.mcc_ ≠ B2.mcc_ := by
      rw [hA.1, hB.1]; exact hp
    rw [IsMoreSuitable_of_mcc_differ lm k A B R hmcc hp,
      IsMoreSuitable_of_mcc_differ lm2 k A2 B2 R2 hmcc2 hp2, hA.1]
    exact ⟨decide_eq_true_iff, rfl⟩

/-- Witness of claim C17: for the request with mcc 460 and mnc 0, the
candidate with both beats `enUS`, which has neither, and `enUS` does not beat
it; for the request with mcc 460 alone, the candidate with mcc 460 beats the
default config. -/
theorem IsMoreSuitable_carrier_first_witness :
    (carrierFull.IsMoreSuitable specLocaleMatcher specCommon (some enUS) (some carrierFull)
        = true ∧
      ¬ enUS.IsMoreSuitable specLocaleMatcher specCommon (some carrierFull) (some carrierFull)
        = true) ∧
    carrierMcc.IsMoreSuitable specLocaleMatcher specCommon (some plain) (some carrierMcc)
      = true :=
  ⟨⟨((IsMoreSuitable_carrier_first specLocaleMatcher specLocaleMatcher specCommon carrierFull
        enUS carrierFull carrierFull enUS carrierFull ⟨rfl, rfl⟩ ⟨rfl, rfl⟩ ⟨rfl, rfl⟩).1
        (by decide) (by decide)).1.mpr (by decide),
      fun h => absurd (((IsMoreSuitable_carrier_first specLocaleMatcher specLocaleMatcher
        specCommon enUS carrierFull carrierFull enUS carrierFull carrierFull ⟨rfl, rfl⟩
        ⟨rfl, rfl⟩ ⟨rfl, rfl⟩).1 (by decide) (by decide)).1.mp h) (by decide)⟩,
    ((IsMoreSuitable_carrier_first specLocaleMatcher specLocaleMatcher specCommon carrierMcc
      plain carrierMcc carrierMcc plain carrierMcc ⟨rfl, rfl⟩ ⟨rfl, rfl⟩ ⟨rfl, rfl⟩).2
      (by decide) (by decide)).1.mpr (by decide)⟩

/-- Claim C18. Direction, device type and colour mode are decided in that
order, each before the screen density: when the mcc/mnc step does not decide
and the locale comparison returns 0, if `Q` is the first of direction, device
type, colour mode on which `A` and `B` differ while `R` has `Q` set, then
`A.IsMoreSuitable(B, R)` is true exactly when `A` has `Q` set. -/
theorem IsMoreSuitable_wildcard_order (lm : LocaleMatcher) (k : ResCommon)
    (A B R : ResConfigImpl)
    (h1 : R.mcc_ ≠ k.MCC_UNDEFINED ∧ R.mnc_ ≠ k.MNC_UNDEFINED →
      A.mcc_ = B.mcc_ ∧ A.mnc_ = B.mnc_)
    (h2 : R.mcc_ ≠ k.MCC_UNDEFINED ∧ R.mnc_ = k.MNC_UNDEFINED → A.mcc_ = B.mcc_)
    (hloc : lm.IsMoreSuitable A.resLocale_ B.resLocale_ R.resLocale_ = 0) :
    (A.direction_ ≠ B.direction_ ∧ R.direction_ ≠ k.DIRECTION_NOT_SET →
      (A.IsMoreSuitable lm k (some B) (some R) = true ↔
        A.direction_ ≠ k.DIRECTION_NOT_SET)) ∧
    (¬ (A.direction_ ≠ B.direction_ ∧ R.direction_ ≠ k.DIRECTION_NOT_SET) →
      A.deviceType_ ≠ B.deviceType_ ∧ R.deviceType_ ≠ k.DEVICE_NOT_SET →
      (A.IsMoreSuitable lm k (some B) (some R) = true ↔
        A.deviceType_ ≠ k.DEVICE_NOT_SET)) ∧
    (¬ (A.direction_ ≠ B.direction_ ∧ R.direction_ ≠ k.DIRECTION_NOT_SET) →
      ¬ (A.deviceType_ ≠ B.deviceType_ ∧ R.deviceType_ ≠ k.DEVICE_NOT_SET) →
      A.colorMode_ ≠ B.colorMode_ ∧ R.colorMode_ ≠ k.COLOR_MODE_NOT_SET →
      (A.IsMoreSuitable lm k (some B) (some R) = true ↔
        A.colorMode_ ≠ k.COLOR_MODE_NOT_SET)) := by
  rw [IsMoreSuitable_eq_cascade_of_undecided lm k A B R h1 h2]
  simp only [suitableCascade, GetResLocale, hloc, gt_iff_lt, lt_self_iff_false, if_false]
  refine ⟨fun hd => ?_, fun hd hv => ?_, fun hd hv hc => ?_⟩
  · rw [if_pos hd, decide_eq_true_eq]
  · rw [if_neg hd, if_pos hv, decide_eq_true_eq]
  · rw [if_neg hd, if_neg hv, if_pos hc, decide_eq_true_eq]

/-- Witness of claim C18: for a request with direction 1 and screen density
240, the candidate with direction 1 and density 160 beats the candidate
without direction and with density 240, and is not beaten by it. -/
theorem IsMoreSuitable_wildcard_order_witness :
    ((ofDirection 1).SetScreenDensity 160).IsMoreSuitable specLocaleMatcher specCommon
        (some (ofDensity 240)) (some ((ofDirection 1).SetScreenDensity 240)) = true ∧
    ¬ (ofDensity 240).IsMoreSuitable specLocaleMatcher specCommon
        (some ((ofDirection 1).SetScreenDensity 160))
        (some ((ofDirection 1).SetScreenDensity 240)) = true :=
  ⟨((IsMoreSuitable_wildcard_order specLocaleMatcher specCommon
      ((ofDirection 1).SetScreenDensity 160) (ofDensity 240)
      ((ofDirection 1).SetScreenDensity 240) (by decide) (by decide) (by decide)).1
      (by decide)).mpr (by decide),
    fun h => absurd (((IsMoreSuitable_wildcard_order specLocaleMatcher specCommon
      (ofDensity 240) ((ofDirection 1).SetScreenDensity 160)
      ((ofDirection 1).SetScreenDensity 240) (by decide) (by decide) (by decide)).1
      (by decide)).mp h) (by decide)⟩

/-- When the candidate `C` defines both mcc and mnc and the request `R` leaves
mnc undefined, the guard of line 253 fails and `C.Match(R)` compares no
carrier code: it is true exactly when the locales match and direction,
device type and colour mode are compatible. -/
theorem Match_skips_mcc (lm : LocaleMatcher) (k : ResCommon) (C R : ResConfigImpl)
    (hC : C.mcc_ ≠ k.MCC_UNDEFINED ∧ C.mnc_ ≠ k.MNC_UNDEFINED)
    (hR : R.mnc_ = k.MNC_UNDEFINED) :
    C.Match lm k (some R) = true ↔
      lm.Match C.resLocale_ R.resLocale_ = true ∧
      (C.direction_ = R.direction_ ∨ C.direction_ = k.DIRECTION_NOT_SET
        ∨ R.direction_ = k.DIRECTION_NOT_SET) ∧
      (C.deviceType_ = R.deviceType_ ∨ C.deviceType_ = k.DEVICE_NOT_SET
        ∨ R.deviceType_ = k.DEVICE_NOT_SET) ∧
      (C.colorMode_ = R.colorMode_ ∨ C.colorMode_ = k.COLOR_MODE_NOT_SET
        ∨ R.colorMode_ = k.COLOR_MODE_NOT_SET) := by
  rw [Match_some_iff]
  constructor
  · exact fun h => h.2
  · intro h
    exact ⟨⟨fun _ c => absurd hR c.2, fun c => absurd c.2 hC.2⟩, h⟩

/-- Claim C19, as amended. `Match` never accepts a conflicting carrier code
when the request defines all that the candidate defines: for every candidate
`C` and request `R`, if `C.Match(R)` is true, both define mcc, and `C` leaves
mnc undefined or `R` defines mnc as well, then the mcc of `C` equals the mcc
of `R`. -/
theorem Match_mcc_agree (lm : LocaleMatcher) (k : ResCommon) (C R : ResConfigImpl)
    (hmatch : C.Match lm k (some R) = true)
    (hC : C.mcc_ ≠ k.MCC_UNDEFINED) (hR : R.mcc_ ≠ k.MCC_UNDEFINED)
    (hmnc : C.mnc_ = k.MNC_UNDEFINED ∨ R.mnc_ ≠ k.MNC_UNDEFINED) :
    C.mcc_ = R.mcc_ := by
  obtain ⟨⟨hboth, honly⟩, -⟩ := (Match_some_iff lm k C R).mp hmatch
  by_cases hCmnc : C.mnc_ = k.MNC_UNDEFINED
  · exact honly ⟨hC, hCmnc⟩ hR
  · rcases hmnc with h | h
    · exact absurd h hCmnc
    · exact (hboth ⟨hC, hCmnc⟩ ⟨hR, h⟩).1

/-- Witness of claim C19: the candidate with mcc 460 alone matches the
request with mcc 460 and mnc 0, and the candidate with mcc 460 and mnc 0
matches that request too; in both cases the mcc agree. -/
theorem Match_mcc_agree_witness :
    (carrierMcc.Match specLocaleMatcher specCommon (some carrierFull) = true ∧
      carrierMcc.mcc_ = carrierFull.mcc_) ∧
    (carrierFull.Match specLocaleMatcher specCommon (some carrierFull) = true ∧
      carrierFull.mcc_ = carrierFull.mcc_) :=
  ⟨⟨by decide, Match_mcc_agree specLocaleMatcher specCommon carrierMcc carrierFull
      (by decide) (by decide) (by decide) (Or.inl (by decide))⟩,
    ⟨by decide, Match_mcc_agree specLocaleMatcher specCommon carrierFull carrierFull
      (by decide) (by decide) (by decide) (Or.inr (by decide))⟩⟩

/-- Counterexample to claim C19 as stated: the candidate with mcc 310 and
mnc 1 matches the request with mcc 460 and no mnc, although both define mcc
and 310 is not 460. -/
theorem Match_accepts_other_mcc :
    carrierOther.Match specLocaleMatcher specCommon (some carrierMcc) = true ∧
    carrierOther.mcc_ ≠ specCommon.MCC_UNDEFINED ∧
    carrierMcc.mcc_ ≠ specCommon.MCC_UNDEFINED ∧
    carrierOther.mcc_ ≠ carrierMcc.mcc_ := by
  decide

/-- Claim C20, as amended. A default-constructed config has no locale, the
direction, device type and screen density at their not-set values, mcc and
mnc undefined, `isCompletedScript` false, and the colour mode `LIGHT`; as a
candidate it matches a request exactly when the colour mode of the request is
`LIGHT` or not set (or `LIGHT` is the not-set value), taking
`LocaleMatcher::Match` to be true when the candidate locale is absent. -/
theorem Match_default_config (lm : LocaleMatcher) (k : ResCommon) (R : ResConfigImpl)
    (hloc : lm.Match none R.resLocale_ = true) :
    ((ResConfigImpl.new k).resLocale_ = none ∧ (ResConfigImpl.new k).localeInfo_ = none ∧
      (ResConfigImpl.new k).direction_ = k.DIRECTION_NOT_SET ∧
      (ResConfigImpl.new k).deviceType_ = k.DEVICE_NOT_SET ∧
      (ResConfigImpl.new k).screenDensity_ = k.SCREEN_DENSITY_NOT_SET ∧
      (ResConfigImpl.new k).mcc_ = k.MCC_UNDEFINED ∧
      (ResConfigImpl.new k).mnc_ = k.MNC_UNDEFINED ∧
      (ResConfigImpl.new k).IsCompletedScript = false ∧
      (ResConfigImpl.new k).colorMode_ = k.LIGHT) ∧
    ((ResConfigImpl.new k).Match lm k (some R) = true ↔
      (k.LIGHT = R.colorMode_ ∨ k.LIGHT = k.COLOR_MODE_NOT_SET
        ∨ R.colorMode_ = k.COLOR_MODE_NOT_SET)) := by
  refine ⟨⟨rfl, rfl, rfl, rfl, rfl, rfl, rfl, rfl, rfl⟩, ?_⟩
  rw [Match_some_iff]
  simp only [ResConfigImpl.new, hloc, ne_eq, not_true_eq_false, false_and, and_false,
    false_implies, true_or, or_true, and_self, true_and, implies_true]

/-- Witness of claim C20: the default-constructed config matches the request
`enUS`, whose colour mode is `LIGHT`, and a request with the colour mode not
set. -/
theorem Match_default_config_witness :
    (ResConfigImpl.new specCommon).Match specLocaleMatcher specCommon (some enUS) = true ∧
    (ResConfigImpl.new specCommon).Match specLocaleMatcher specCommon
      (some (enUS.SetColorMode specCommon.COLOR_MODE_NOT_SET)) = true :=
  ⟨(Match_default_config specLocaleMatcher specCommon enUS (by decide)).2.mpr (by decide),
    (Match_default_config specLocaleMatcher specCommon
      (enUS.SetColorMode specCommon.COLOR_MODE_NOT_SET) (by decide)).2.mpr (by decide)⟩

/-- Counterexample to claim C20 as stated: the colour mode of a
default-constructed config is not the not-set value, and the config does not
match a request whose colour mode is 0, neither `LIGHT` nor not set. -/
theorem Match_default_rejects_other_colorMode :
    (ResConfigImpl.new specCommon).colorMode_ ≠ specCommon.COLOR_MODE_NOT_SET ∧
    specLocaleMatcher.Match (ResConfigImpl.new specCommon).resLocale_ (ofColorMode 0).resLocale_
      = true ∧
    (ResConfigImpl.new specCommon).Match specLocaleMatcher specCommon (some (ofColorMode 0))
      = false := by
  decide

/-! ## The specificity fallback on the other qualifiers -/

/-- For configs identical except in one of direction, device type, colour
mode and screen density, with the locale comparison tied, the config that
has the qualifier set is more specific than the one that has it unset, and
not the other way round. -/
theorem IsMoreSpecificThan_prefers_set (lm : LocaleMatcher) (k : ResCommon)
    (X : ResConfigImpl) (d : Int)
    (hloc : lm.IsMoreSpecificThan X.resLocale_ X.resLocale_ = 0) :
    (d ≠ k.DIRECTION_NOT_SET →
      (X.SetDirection d).IsMoreSpecificThan lm k (some (X.SetDirection k.DIRECTION_NOT_SET))
        = true ∧
      (X.SetDirection k.DIRECTION_NOT_SET).IsMoreSpecificThan lm k (some (X.SetDirection d))
        = false) ∧
    (d ≠ k.DEVICE_NOT_SET →
      (X.SetDeviceType d).IsMoreSpecificThan lm k (some (X.SetDeviceType k.DEVICE_NOT_SET))
        = true ∧
      (X.SetDeviceType k.DEVICE_NOT_SET).IsMoreSpecificThan lm k (some (X.SetDeviceType d))
        = false) ∧
    (d ≠ k.COLOR_MODE_NOT_SET →
      (X.SetColorMode d).IsMoreSpecificThan lm k (some (X.SetColorMode k.COLOR_MODE_NOT_SET))
        = true ∧
      (X.SetColorMode k.COLOR_MODE_NOT_SET).IsMoreSpecificThan lm k (some (X.SetColorMode d))
        = false) ∧
    (d ≠ k.SCREEN_DENSITY_NOT_SET →
      (X.SetScreenDensity d).IsMoreSpecificThan lm k
        (some (X.SetScreenDensity k.SCREEN_DENSITY_NOT_SET)) = true ∧
      (X.SetScreenDensity k.SCREEN_DENSITY_NOT_SET).IsMoreSpecificThan lm k
        (some (X.SetScreenDensity d)) = false) := by
  refine ⟨fun h => ?_, fun h => ?_, fun h => ?_, fun h => ?_⟩ <;>
  · have h1 : ¬ (d = _) := h
    have h2 : ¬ (_ = d) := fun e => h e.symm
    simp only [IsMoreSpecificThan, SetDirection, SetDeviceType, SetColorMode, SetScreenDensity,
      GetResLocale, hloc, ne_eq, h1, h2, not_false_eq_true, not_true_eq_false, or_self,
      if_false, if_true, ite_self, gt_iff_lt, lt_self_iff_false, decide_True, decide_False,
      and_self]

/-! ## Raw-directory name lookup -/

/-- A positive `sizeToInt n` is at most `n`. -/
theorem sizeToInt_le (n : Nat) (h : 0 < sizeToInt n) : sizeToInt n ≤ (n : Int) := by
  unfold sizeToInt at h ⊢
  omega

/-- An index accepted by the two tests of `GetRawFileName` is below the size
of the vector. -/
theorem index_lt_length (n : Nat) (index : Int) (h0 : 0 ≤ index) (h1 : index < sizeToInt n) :
    index.toNat < n := by
  have h := sizeToInt_le n (by omega)
  omega

/-- Claim C21. Raw-directory name lookup is bounds-safe: `GetRawFileName`
never reads past the end of the cached names; for a non-null `rawDir` and
`0 ≤ index < GetRawFileCount(rawDir)` it returns the cached name at `index`;
in every other case it returns `nullptr`; and `GetRawFileCount(nullptr)` is
0. -/
theorem GetRawFileName_bounds (rawDir : Option RawDir) (index : Int) :
    GetRawFileName rawDir index ≠ NameResult.outOfRange ∧
    (∀ dir, rawDir = some dir → 0 ≤ index → index < GetRawFileCount rawDir →
      ∃ chars, dir.fileNameCache.names[index.toNat]? = some chars ∧
        GetRawFileName rawDir index = NameResult.name chars) ∧
    (¬ (rawDir ≠ none ∧ 0 ≤ index ∧ index < GetRawFileCount rawDir) →
      GetRawFileName rawDir index = NameResult.nullptr) ∧
    ((∃ chars, GetRawFileName rawDir index = NameResult.name chars) ↔
      rawDir ≠ none ∧ 0 ≤ index ∧ index < GetRawFileCount rawDir) ∧
    GetRawFileCount none = 0 := by
  have inRange : ∀ dir, rawDir = some dir → 0 ≤ index → index < GetRawFileCount rawDir →
      ∃ chars, dir.fileNameCache.names[index.toNat]? = some chars ∧
        GetRawFileName rawDir index = NameResult.name chars := by
    intro dir hdir h0 h1
    subst hdir
    have h1b : index < sizeToInt dir.fileNameCache.names.length := h1
    have hlt := index_lt_length _ index h0 h1b
    refine ⟨dir.fileNameCache.names[index.toNat], List.getElem?_eq_getElem hlt, ?_⟩
    have hc : ¬ (sizeToInt dir.fileNameCache.names.length = 0 ∨
        index ≥ sizeToInt dir.fileNameCache.names.length) := by omega
    simp only [GetRawFileName, if_neg (not_lt.mpr h0), if_neg hc, List.getElem?_eq_getElem hlt]
  have outside : ¬ (rawDir ≠ none ∧ 0 ≤ index ∧ index < GetRawFileCount rawDir) →
      GetRawFileName rawDir index = NameResult.nullptr := by
    intro h
    cases rawDir with
    | none => rfl
    | some dir =>
      by_cases h0 : index < 0
      · simp only [GetRawFileName, if_pos h0]
      · have hc : sizeToInt dir.fileNameCache.names.length = 0 ∨
            index ≥ sizeToInt dir.fileNameCache.names.length := by
          by_contra hn
          apply h
          refine ⟨by simp, by omega, ?_⟩
          show index < sizeToInt dir.fileNameCache.names.length
          omega
        simp only [GetRawFileName, if_neg h0, if_pos hc]
  have cases : (rawDir ≠ none ∧ 0 ≤ index ∧ index < GetRawFileCount rawDir) ∨
      ¬ (rawDir ≠ none ∧ 0 ≤ index ∧ index < GetRawFileCount rawDir) := em _
  refine ⟨?_, inRange, outside, ?_, rfl⟩
  · rcases cases with h | h
    · obtain ⟨dir, hdir⟩ := Option.ne_none_iff_exists'.mp h.1
      obtain ⟨chars, -, e⟩ := inRange dir hdir h.2.1 h.2.2
      rw [e]
      exact fun c => NameResult.noConfusion c
    · rw [outside h]
      exact fun c => NameResult.noConfusion c
  · constructor
    · rintro ⟨chars, e⟩
      by_contra h
      rw [outside h] at e
      exact NameResult.noConfusion e
    · intro h
      obtain ⟨dir, hdir⟩ := Option.ne_none_iff_exists'.mp h.1
      obtain ⟨chars, -, e⟩ := inRange dir hdir h.2.1 h.2.2
      exact ⟨chars, e⟩

/-- Witness of claim C21: a directory with two cached names, at the indices
1, 2 and -1, and the null handle. -/
theorem GetRawFileName_bounds_witness :
    GetRawFileCount (some twoFiles) = 2 ∧
    GetRawFileName (some twoFiles) 1 = NameResult.name "rawfile/b.txt" ∧
    GetRawFileName (some twoFiles) 2 = NameResult.nullptr ∧
    GetRawFileName (some twoFiles) (-1) = NameResult.nullptr ∧
    GetRawFileName none 0 = NameResult.nullptr :=
  ⟨by decide, by decide,
    (GetRawFileName_bounds (some twoFiles) 2).2.2.1 (by decide),
    (GetRawFileName_bounds (some twoFiles) (-1)).2.2.1 (by decide),
    (GetRawFileName_bounds none 0).2.2.1 (by decide)⟩

end OHOS.Global.Resource
